import Mathlib

/-!
# TNN: CUDA 3-D convolution accelerator and the process-statistics helper

A shallow embedding of

* `source/tnn/device/cuda/acc/cuda_conv_3d_layer_acc.cc`
  (`CudaConv3DLayerAcc::Init`, `Reshape`, `Forward`, the destructor), and
* `platforms/linux/src/memory_usage.cc` (`GetItems`),

followed by the properties established about them.

Conventions.

* `int` values are `Int`; `size_t` values are `Nat` reduced modulo `2 ^ 64`
  where the source performs arithmetic on them; `unsigned int` is reduced
  modulo `2 ^ 32`.
* Device pointers are natural numbers, `0` being `nullptr`.
* The CUDA runtime is an allocation-tracking double (`Device`): every
  `cudaMalloc` hands out a fresh non-null pointer and records the buffer,
  `cudaFree` drops it.  `CUDA_CHECK` / `CUDNN_CHECK` are used inside the
  destructor as well, so they cannot return a `Status`; an execution that
  reaches a `return` is one in which every device call succeeded, and this
  is what the embedding describes.
* `float` data is carried by exact rationals; a cell holding `none` is an
  indeterminate value (never written, or read from outside a host buffer).
-/

namespace TNN_NS

/-! ## memory_usage.cc -/

/-- The conversion of a `size_t` length to `int` (two's complement, 32 bit). -/
def toInt32 (n : Nat) : Int :=
  if n % 2 ^ 32 < 2 ^ 31 then ((n % 2 ^ 32 : Nat) : Int) else ((n % 2 ^ 32 : Nat) : Int) - 2 ^ 32

/-- The `for` loop of `GetItems`: `fuel` is the number of iterations left
(`len - i`), `p` the offset of the pointer `p` from `buffer`, `count` the
`unsigned int` counter.  The result is the offset of `p` when the loop is
left, by `break` or by exhaustion. -/
def GetItemsLoop (buffer : List Char) (item : Nat) : Nat → Nat → Nat → Nat
  | 0, p, _ => p
  | fuel + 1, p, count =>
    if buffer.getD p (Char.ofNat 0) = ' ' then
      if (count + 1) % 2 ^ 32 = (item + 2 ^ 32 - 1) % 2 ^ 32 then
        p + 1
      else
        GetItemsLoop buffer item fuel (p + 1) ((count + 1) % 2 ^ 32)
    else
      GetItemsLoop buffer item fuel (p + 1) count

/-- `GetItems(buffer, item)`: `buffer` lists the characters before the
terminating NUL, the result is the offset of the returned pointer from
`buffer`. -/
def GetItems (buffer : List Char) (item : Nat) : Nat :=
  GetItemsLoop buffer (item % 2 ^ 32) (toInt32 buffer.length).toNat 0 0

/-- The position just after the `k`-th space of `buffer` (counting from
`k = 1`), as an offset from the start; `none` when there are fewer than `k`
spaces.  For `k = 0` it is the start of the buffer. -/
def afterSpace : List Char → Nat → Option Nat
  | _, 0 => some 0
  | [], _ + 1 => none
  | c :: cs, k + 1 =>
    if c = ' ' then (afterSpace cs k).map (· + 1)
    else (afterSpace cs (k + 1)).map (· + 1)


/-! ## The device layer -/

/-- Status codes returned by the accelerator in the source file. -/
inductive Status
  | TNN_OK
  | TNNERR_MODEL_ERR
deriving DecidableEq, Repr

/-- A live device buffer: its pointer, its size in bytes and its `float`
contents. -/
structure DevBuf where
  ptr : Nat
  bytes : Nat
  data : List (Option ℚ)
deriving DecidableEq

/-- The allocation-tracking device: `next` is the last pointer handed out,
`live` the buffers allocated and not yet freed, oldest first. -/
structure Device where
  next : Nat
  live : List DevBuf
deriving DecidableEq

/-- `cudaMalloc(&p, size)`: a fresh non-null pointer, recorded as live. -/
def cudaMalloc (dev : Device) (size : Nat) : Nat × Device :=
  (dev.next + 1, { next := dev.next + 1, live := dev.live ++ [⟨dev.next + 1, size, []⟩] })

/-- `cudaFree(p)`. -/
def cudaFree (dev : Device) (p : Nat) : Device :=
  { dev with live := dev.live.filter (fun b => decide (b.ptr ≠ p)) }

/-- `cudaMemcpy(dst, src, count, cudaMemcpyHostToDevice)`, `src` being the
values read from the host. -/
def cudaMemcpy (dev : Device) (dst : Nat) (src : List (Option ℚ)) : Device :=
  { dev with live := dev.live.map (fun b => if b.ptr = dst then { b with data := src } else b) }

/-- The contents of the device buffer at `p`. -/
def Device.read (dev : Device) (p : Nat) : List (Option ℚ) :=
  match dev.live.find? (fun b => decide (b.ptr = p)) with
  | some b => b.data
  | none => []

/-- A device whose fresh pointers are fresh: no live buffer carries a
pointer beyond the last one handed out. -/
def Device.WF (dev : Device) : Prop :=
  ∀ b ∈ dev.live, b.ptr ≤ dev.next

/-- The conversion of an `int` to `size_t`. -/
def toSizeT (x : Int) : Nat := (x % 2 ^ 64).toNat

/-- The values of the C type `int`. -/
def IsInt (x : Int) : Prop := -(2 ^ 31) ≤ x ∧ x < 2 ^ 31

instance (x : Int) : Decidable (IsInt x) := by
  unfold IsInt; infer_instance

/-! ## Tensors, parameters and resources -/

/-- Modelled from the spec: the header declaring `DimsVector` and the helper
`FetchDimensions` that reads it are not among the source files; the tensor
descriptor's "ordered dimensions (batch, channels, depth, height, width)"
are taken as five `int` fields. -/
structure DimsVector where
  batch : Int
  channels : Int
  depth : Int
  height : Int
  width : Int
deriving DecidableEq

/-- The dimensions as an array, in order. -/
def DimsVector.toList (d : DimsVector) : List Int :=
  [d.batch, d.channels, d.depth, d.height, d.width]

/-- A blob: its descriptor's dims and the `float` contents of the device
memory behind `GetHandle().base`. -/
structure Blob where
  dims : DimsVector
  base : List (Option ℚ)
deriving DecidableEq

/-- The record `blob_info_`. -/
structure BlobInfo where
  batch : Int
  input_c : Int
  input_d : Int
  input_h : Int
  input_w : Int
  output_c : Int
  output_d : Int
  output_h : Int
  output_w : Int
deriving DecidableEq

/-- Modelled from the spec: `FetchDimensions(inputs[0], outputs[0],
blob_info_)` is declared in `device/cuda/cuda_utils.h`, which is not among
the source files; it copies the ordered dimensions (batch, channels, depth,
height, width) of the input and of the output tensor into `blob_info_`. -/
def FetchDimensions (input output : Blob) : BlobInfo :=
  { batch := input.dims.batch
    input_c := input.dims.channels
    input_d := input.dims.depth
    input_h := input.dims.height
    input_w := input.dims.width
    output_c := output.dims.channels
    output_d := output.dims.depth
    output_h := output.dims.height
    output_w := output.dims.width }

/-- The record `kernel_`. -/
structure KernelInfo where
  groups : Int
  kernel_d : Int
  kernel_h : Int
  kernel_w : Int
  pad_f : Int
  pad_t : Int
  pad_l : Int
  stride_d : Int
  stride_h : Int
  stride_w : Int
  dilation_d : Int
  dilation_h : Int
  dilation_w : Int
deriving DecidableEq

/-- Modelled from the spec: `ConvLayerParam` is declared outside the source
files; the operator configuration holds "kernel extents (d,h,w), stride
(d,h,w), padding (front/top/left), dilation (d,h,w), group count,
bias-present flag". -/
structure ConvLayerParam where
  kernel : KernelInfo
  bias : Bool
deriving DecidableEq

/-- Modelled from the spec: `FetchKernelInfo(conv_param, kernel_)` is
declared in `device/cuda/cuda_utils.h`, which is not among the source files;
it copies the configuration's kernel extents, strides, paddings, dilations
and group count into `kernel_`. -/
def FetchKernelInfo (conv_param : ConvLayerParam) : KernelInfo :=
  conv_param.kernel

/-- Modelled from the spec: `RawBuffer` (the type of `filter_handle` and
`bias_handle`) is declared outside the source files; it is "an opaque byte
buffer with a documented element count": `bytes_size` is what
`GetBytesSize()` returns, `data` lists the `float` values the buffer
holds. -/
structure RawBuffer where
  bytes_size : Int
  data : List ℚ
deriving DecidableEq

/-- The resource `ConvLayerResource`. -/
structure ConvLayerResource where
  filter_handle : RawBuffer
  bias_handle : RawBuffer
deriving DecidableEq

/-- What a host-to-device copy of `count` bytes reads from `buf`: the
`count / 4` values starting at its first one; a value read from beyond the
last one the buffer holds is indeterminate. -/
def hostRead (buf : RawBuffer) (count : Nat) : List (Option ℚ) :=
  (List.range (count / 4)).map (fun i => buf.data.get? i)

/-! ## The cuDNN library -/

/-- A convolution descriptor: group count and the three arrays given to
`cudnnSetConvolutionNdDescriptor`. -/
structure ConvDesc where
  groups : Int
  pad : List Int
  stride : List Int
  dilation : List Int
deriving DecidableEq

/-- The library calls whose results the library chooses: the forward
algorithm preferred for the four descriptors, the workspace size that
algorithm needs, and the values a forward convolution computes from the
input and the filter. -/
structure Cudnn where
  GetConvolutionForwardAlgorithm : List Int → List Int → ConvDesc → List Int → Nat
  GetConvolutionForwardWorkspaceSize : List Int → List Int → ConvDesc → List Int → Nat → Nat
  Convolution : List Int → List (Option ℚ) → List Int → List (Option ℚ) → ConvDesc → Nat →
    List Int → List (Option ℚ)

/-- Modelled from the spec: the size of one spatial axis of the output,
`floor((in + 2·pad − dilation·(kernel−1) − 1) / stride) + 1`. -/
def convOutputSize (inp kernel pad stride dilation : Int) : Int :=
  Int.fdiv (inp + 2 * pad - dilation * (kernel - 1) - 1) stride + 1

/-- Modelled from the spec: `cudnnGetConvolutionNdForwardOutputDim` belongs
to the vendor library, which is not among the source files; the output shape
is "derived by the standard convolution arithmetic": batch of the input,
channel count of the filter, and `convOutputSize` on each spatial axis.
Descriptors of another rank yield no dimensions. -/
def cudnnGetConvolutionNdForwardOutputDim (conv : ConvDesc) (x w : List Int) : List Int :=
  match x, w, conv.pad, conv.stride, conv.dilation with
  | [n, _, d, h, wd], [k, _, kd, kh, kw], [pd, ph, pw], [sd, sh, sw], [dd, dh, dw] =>
    [n, k, convOutputSize d kd pd sd dd, convOutputSize h kh ph sh dh,
      convOutputSize wd kw pw sw dw]
  | _, _, _, _, _ => []

/-- Modelled from the spec: the vendor library is not among the source
files; a device operation writes `dst = alpha * result + beta * prior`
(with alpha 1 and beta 1 the result is "accumulated additively, not
blended"), the prior value not being read when `beta` is zero. -/
def blend (alpha beta : ℚ) (result prior : Option ℚ) : Option ℚ :=
  if beta = 0 then result.map (fun r => alpha * r)
  else result.bind (fun r => prior.map (fun p => alpha * r + beta * p))

/-- The number of elements of a tensor with the given dimensions. -/
def numel (dims : List Int) : Nat := (dims.foldl (· * ·) 1).toNat

/-- Modelled from the spec: the bias descriptor is "broadcast over spatial
and batch axes".  The flat index, in a tensor of dimensions `a`, of the element broadcast
to flat index `i` of a tensor of dimensions `c` (row-major layout): along an
axis on which `a` has extent 1 the index is 0, otherwise that of `c`. -/
def broadcastIndex : List Int → List Int → Nat → Nat
  | ad :: a, _ :: c, i =>
    (if ad = 1 then 0 else i / numel c) * numel a + broadcastIndex a c (i % numel c)
  | _, _, _ => 0

/-- Modelled from the spec: `cudnnConvolutionForward(handle, &alpha, xDesc, x,
wDesc, w, convDesc, algo, workSpace, workSpaceSize, &beta, yDesc, y)` belongs
to the vendor library; it "executes the operation writing results into the
output tensor's device buffer".  The result is the new contents of `y`, one
value for each element of `yDesc`. -/
def cudnnConvolutionForward (lib : Cudnn) (alpha : ℚ) (xDesc : List Int) (x : List (Option ℚ))
    (wDesc : List Int) (w : List (Option ℚ)) (convDesc : ConvDesc) (algo : Nat) (beta : ℚ)
    (yDesc : List Int) (y : List (Option ℚ)) : List (Option ℚ) :=
  (List.range (numel yDesc)).map (fun i =>
    blend alpha beta ((lib.Convolution xDesc x wDesc w convDesc algo yDesc).getD i none)
      (y.getD i none))

/-- Modelled from the spec: `cudnnAddTensor(handle, &alpha, aDesc, A, &beta,
cDesc, C)` belongs to the vendor library; it adds the bias "to every output
element in the corresponding channel".  The result is the new contents of
`C`. -/
def cudnnAddTensor (alpha : ℚ) (aDesc : List Int) (a : List (Option ℚ)) (beta : ℚ)
    (cDesc : List Int) (c : List (Option ℚ)) : List (Option ℚ) :=
  (List.range (numel cDesc)).map (fun i =>
    blend alpha beta (a.getD (broadcastIndex aDesc cDesc i) none) (c.getD i none))


/-- The channel of the element at flat index `i` of a row-major tensor of
dimensions `[n, c, d, h, w]`: `(i / (d * h * w)) % c`. -/
def channelOf (dims : List Int) (i : Nat) : Nat :=
  (i / numel (dims.drop 2)) % (dims.getD 1 0).toNat

/-! ## cuda_conv_3d_layer_acc.cc -/

/-- The data members of `CudaConv3DLayerAcc`.  A descriptor is the array of
dimensions it was last set to, `[]` while it is created and unset. -/
structure CudaConv3DLayerAcc where
  alpha_ : ℚ
  beta_ : ℚ
  workspace_data_ : Nat
  workspace_size_ : Nat
  weights_ : Nat
  bias_ : Nat
  bias_term_ : Bool
  blob_info_ : BlobInfo
  kernel_ : KernelInfo
  bottom_desc_ : List Int
  top_desc_ : List Int
  bias_desc_ : List Int
  filter_desc_ : List Int
  conv_desc_ : ConvDesc
  conv_algo_ : Nat
deriving DecidableEq

/-- The value `needed_workspace_size` that `Reshape` obtains from the library
for the input blob, on an instance with the given filter and convolution
descriptors. -/
def neededWorkspaceSize (lib : Cudnn) (filter_desc : List Int) (conv_desc : ConvDesc)
    (input : Blob) : Nat :=
  let in_dims := input.dims.toList
  let out_dims := cudnnGetConvolutionNdForwardOutputDim conv_desc in_dims filter_desc
  lib.GetConvolutionForwardWorkspaceSize in_dims filter_desc conv_desc out_dims
    (lib.GetConvolutionForwardAlgorithm in_dims filter_desc conv_desc out_dims)

/-- `CudaConv3DLayerAcc::Reshape(inputs, outputs)`, with `input` and `output`
the blobs `inputs[0]` and `outputs[0]`. -/
def Reshape (lib : Cudnn) (self : CudaConv3DLayerAcc) (input output : Blob) (dev : Device) :
    Status × CudaConv3DLayerAcc × Device :=
  let blob_info := FetchDimensions input output
  let in_dims := [blob_info.batch, blob_info.input_c, blob_info.input_d, blob_info.input_h,
    blob_info.input_w]
  let self := { self with blob_info_ := blob_info, bottom_desc_ := in_dims }
  let out_dims :=
    cudnnGetConvolutionNdForwardOutputDim self.conv_desc_ self.bottom_desc_ self.filter_desc_
  let self := { self with top_desc_ := out_dims }
  let conv_algo := lib.GetConvolutionForwardAlgorithm self.bottom_desc_ self.filter_desc_
    self.conv_desc_ self.top_desc_
  let self := { self with conv_algo_ := conv_algo }
  let needed_workspace_size := lib.GetConvolutionForwardWorkspaceSize self.bottom_desc_
    self.filter_desc_ self.conv_desc_ self.top_desc_ self.conv_algo_
  if self.workspace_size_ < needed_workspace_size then
    let self := { self with workspace_size_ := needed_workspace_size }
    let dev := if self.workspace_data_ ≠ 0 then cudaFree dev self.workspace_data_ else dev
    let r := cudaMalloc dev self.workspace_size_
    (Status.TNN_OK, { self with workspace_data_ := r.1 }, r.2)
  else
    (Status.TNN_OK, self, dev)

/-- The local `weights_size` of `Init`: `sizeof(float) * input_c * output_c *
kernel_d * kernel_h * kernel_w`, computed in `size_t`. -/
def weights_size (blob_info : BlobInfo) (kernel : KernelInfo) : Nat :=
  toSizeT (4 * blob_info.input_c * blob_info.output_c * kernel.kernel_d * kernel.kernel_h *
    kernel.kernel_w)

/-- The local array `filter_dims` of `Init`. -/
def filter_dims (blob_info : BlobInfo) (kernel : KernelInfo) : List Int :=
  [blob_info.output_c, Int.tdiv blob_info.input_c kernel.groups, kernel.kernel_d, kernel.kernel_h,
    kernel.kernel_w]

/-- The first part of `CudaConv3DLayerAcc::Init`, up to and including the
staging of the weights (source lines 14 to 72): the members are reset, the
dimensions and the kernel information fetched, the four descriptors created,
the group count, the filter and the convolution descriptor set, and
`weights_size` bytes allocated on the device and copied from the host
weights.  `self` holds the members as they are when `Init` is entered;
`bias_desc_` and `conv_algo_` are not assigned here.  The call of the base
class `CudaLayerAcc::Init`, whose result the source discards, touches none of
these members. -/
def InitStage (self : CudaConv3DLayerAcc) (conv_param : ConvLayerParam)
    (conv_resource : ConvLayerResource) (input output : Blob) (dev : Device) :
    CudaConv3DLayerAcc × Device :=
  let blob_info := FetchDimensions input output
  let kernel := FetchKernelInfo conv_param
  let pad_dims := [kernel.pad_f, kernel.pad_t, kernel.pad_l]
  let sti_dims := [kernel.stride_d, kernel.stride_h, kernel.stride_w]
  let dil_dims := [kernel.dilation_d, kernel.dilation_h, kernel.dilation_w]
  let wsize := weights_size blob_info kernel
  let r := cudaMalloc dev wsize
  let dev1 := cudaMemcpy r.2 r.1 (hostRead conv_resource.filter_handle wsize)
  ({ alpha_ := 1
     beta_ := 0
     workspace_data_ := 0
     workspace_size_ := 0
     weights_ := r.1
     bias_ := 0
     bias_term_ := false
     blob_info_ := blob_info
     kernel_ := kernel
     bottom_desc_ := []
     top_desc_ := []
     bias_desc_ := self.bias_desc_
     filter_desc_ := filter_dims blob_info kernel
     conv_desc_ := ConvDesc.mk kernel.groups pad_dims sti_dims dil_dims
     conv_algo_ := self.conv_algo_ }, dev1)

/-- `CudaConv3DLayerAcc::Init(context, param, resource, inputs, outputs)`,
with `input` and `output` the blobs `inputs[0]` and `outputs[0]`: after
`InitStage`, the bias branch (source lines 78 to 95) and the final call of
`Reshape`. -/
def Init (lib : Cudnn) (self : CudaConv3DLayerAcc) (conv_param : ConvLayerParam)
    (conv_resource : ConvLayerResource) (input output : Blob) (dev : Device) :
    Status × CudaConv3DLayerAcc × Device :=
  let st := InitStage self conv_param conv_resource input output dev
  if conv_param.bias then
    let acc := { st.1 with bias_term_ := true }
    if (toSizeT acc.blob_info_.output_c * 4) % 2 ^ 64 ≠
        toSizeT conv_resource.bias_handle.bytes_size then
      (Status.TNNERR_MODEL_ERR, acc, st.2)
    else
      let bias_dim := [1, acc.blob_info_.output_c, 1, 1, 1]
      let rb := cudaMalloc st.2 (toSizeT conv_resource.bias_handle.bytes_size)
      let dev2 := cudaMemcpy rb.2 rb.1
        (hostRead conv_resource.bias_handle (toSizeT conv_resource.bias_handle.bytes_size))
      Reshape lib { acc with bias_desc_ := bias_dim, bias_ := rb.1 } input output dev2
  else
    Reshape lib st.1 input output st.2

/-- The device calls of `CudaConv3DLayerAcc::~CudaConv3DLayerAcc()` that
release memory. -/
def destroy (self : CudaConv3DLayerAcc) (dev : Device) : Device :=
  let dev := if self.workspace_data_ ≠ 0 then cudaFree dev self.workspace_data_ else dev
  let dev := if self.weights_ ≠ 0 then cudaFree dev self.weights_ else dev
  if self.bias_ ≠ 0 then cudaFree dev self.bias_ else dev

/-- `CudaConv3DLayerAcc::Forward(inputs, outputs)`, with `input` and `output`
the blobs `inputs[0]` and `outputs[0]`: the status and the contents of the
output blob's memory on return. -/
def Forward (lib : Cudnn) (self : CudaConv3DLayerAcc) (input output : Blob) (dev : Device) :
    Status × List (Option ℚ) :=
  let y := cudnnConvolutionForward lib self.alpha_ self.bottom_desc_ input.base
    self.filter_desc_ (dev.read self.weights_) self.conv_desc_ self.conv_algo_ self.beta_
    self.top_desc_ output.base
  if self.bias_term_ then
    let alpha : ℚ := 1
    let beta : ℚ := 1
    let y := cudnnAddTensor alpha self.bias_desc_ (dev.read self.bias_) beta self.top_desc_ y
    (Status.TNN_OK, y)
  else
    (Status.TNN_OK, y)

/-- A sequence of `Reshape` calls, each on its pair `(inputs[0], outputs[0])`,
threading the instance and the device. -/
def ReshapeAll (lib : Cudnn) (st : CudaConv3DLayerAcc × Device) (calls : List (Blob × Blob)) :
    CudaConv3DLayerAcc × Device :=
  calls.foldl (fun acc c => (Reshape lib acc.1 c.1 c.2 acc.2).2) st

/-! ## Concrete data used in the examples -/

/-- A library double: algorithm 7 always, a workspace of `1000`, `500` or
`2000` bytes for batch 1, 2 or 3 (and none otherwise), and a convolution
that yields the value 2 everywhere. -/
def exLib : Cudnn :=
  { GetConvolutionForwardAlgorithm := fun _ _ _ _ => 7
    GetConvolutionForwardWorkspaceSize := fun x _ _ _ _ =>
      if x.headD 0 = 1 then 1000 else if x.headD 0 = 2 then 500
      else if x.headD 0 = 3 then 2000 else 0
    Convolution := fun _ _ _ _ _ _ y => List.replicate (numel y) (some 2) }

/-- The members of an instance on which `Init` has not run yet. -/
def exFresh : CudaConv3DLayerAcc :=
  { alpha_ := 0, beta_ := 0, workspace_data_ := 0, workspace_size_ := 0, weights_ := 0,
    bias_ := 0, bias_term_ := false,
    blob_info_ := ⟨0, 0, 0, 0, 0, 0, 0, 0, 0⟩,
    kernel_ := ⟨0, 0, 0, 0, 0, 0, 0, 0, 0, 0, 0, 0, 0⟩,
    bottom_desc_ := [], top_desc_ := [], bias_desc_ := [], filter_desc_ := [],
    conv_desc_ := ⟨0, [], [], []⟩, conv_algo_ := 0 }

/-- A device with nothing allocated. -/
def exDevice : Device := ⟨0, []⟩

/-- A blob of the given dimensions with unwritten memory. -/
def exBlob (n c d h w : Int) : Blob := ⟨⟨n, c, d, h, w⟩, []⟩

/-- A 3x3x3 kernel with stride 1, padding 1, dilation 1 and the given group
count. -/
def exKernel (groups : Int) : KernelInfo :=
  ⟨groups, 3, 3, 3, 1, 1, 1, 1, 1, 1, 1, 1, 1⟩


/-- An instance left by a successful `Init` on a batch for which the library
double needs no workspace: its workspace size is 0. -/
def exC1Acc : CudaConv3DLayerAcc × Device :=
  (Init exLib exFresh ⟨exKernel 1, false⟩ ⟨⟨864, []⟩, ⟨0, []⟩⟩ (exBlob 4 4 10 10 10)
    (exBlob 4 2 10 10 10) exDevice).2

/-- Three `Reshape` calls, on batches 1, 2 and 3, for which the library
double requires 1000, 500 and 2000 bytes. -/
def exC1Calls : List (Blob × Blob) :=
  [(exBlob 1 4 10 10 10, exBlob 1 2 10 10 10), (exBlob 2 4 10 10 10, exBlob 2 2 10 10 10),
    (exBlob 3 4 10 10 10, exBlob 3 2 10 10 10)]

/-- The instance and device left by a successful `Init` of a bias-free
3x3x3 convolution from 4 to 2 channels on a 10x10x10 input. -/
def exReady : CudaConv3DLayerAcc × Device :=
  (Init exLib exFresh ⟨exKernel 1, false⟩ ⟨⟨864, []⟩, ⟨0, []⟩⟩ (exBlob 1 4 10 10 10)
    (exBlob 1 2 10 10 10) exDevice).2

/-- The result of an `Init` that fails: the bias flag is set and the bias
buffer holds 4 bytes where 2 output channels need 8. -/
def exFailed : Status × CudaConv3DLayerAcc × Device :=
  Init exLib exFresh ⟨exKernel 1, true⟩ ⟨⟨864, []⟩, ⟨4, [1]⟩⟩ (exBlob 1 4 10 10 10)
    (exBlob 1 2 10 10 10) exDevice

/-- A 1x1x1 kernel with stride 1, no padding, dilation 1 and the given group
count. -/
def exKernel1 (groups : Int) : KernelInfo :=
  ⟨groups, 1, 1, 1, 0, 0, 0, 1, 1, 1, 1, 1, 1⟩

/-- A grouped convolution (2 groups, 4 input and 2 output channels, 1x1x1
kernel) with a weight buffer of the documented size, 2 * (4 / 2) = 4 elements
in 16 bytes, initialised on an empty device. -/
def exGrouped : Status × CudaConv3DLayerAcc × Device :=
  Init exLib exFresh ⟨exKernel1 2, false⟩ ⟨⟨16, [1, 1, 1, 1]⟩, ⟨0, []⟩⟩ (exBlob 1 4 2 2 2)
    (exBlob 1 2 2 2 2) exDevice

/-- An `Init` with the bias flag set and a bias buffer of the right size, on
a batch for which the library double requires a workspace of 1000 bytes. -/
def exBiased : Status × CudaConv3DLayerAcc × Device :=
  Init exLib exFresh ⟨exKernel 1, true⟩ ⟨⟨864, []⟩, ⟨8, [1, 1]⟩⟩ (exBlob 1 4 10 10 10)
    (exBlob 1 2 10 10 10) exDevice

/-- A resource for a 3x3x3 convolution from 4 to 2 channels whose two bias
values are 1. -/
def exOnes : ConvLayerResource := ⟨⟨864, []⟩, ⟨8, [1, 1]⟩⟩

/-! ## Basic facts about `Reshape` -/

theorem Reshape_status (lib : Cudnn) (self : CudaConv3DLayerAcc) (input output : Blob)
    (dev : Device) : (Reshape lib self input output dev).1 = Status.TNN_OK := by
  unfold Reshape
  dsimp only
  split <;> rfl

theorem Reshape_filter_desc (lib : Cudnn) (self : CudaConv3DLayerAcc) (input output : Blob)
    (dev : Device) : (Reshape lib self input output dev).2.1.filter_desc_ = self.filter_desc_ := by
  unfold Reshape
  dsimp only
  split <;> rfl

theorem Reshape_conv_desc (lib : Cudnn) (self : CudaConv3DLayerAcc) (input output : Blob)
    (dev : Device) : (Reshape lib self input output dev).2.1.conv_desc_ = self.conv_desc_ := by
  unfold Reshape
  dsimp only
  split <;> rfl

theorem Reshape_top_desc (lib : Cudnn) (self : CudaConv3DLayerAcc) (input output : Blob)
    (dev : Device) :
    (Reshape lib self input output dev).2.1.top_desc_ =
      cudnnGetConvolutionNdForwardOutputDim self.conv_desc_ input.dims.toList
        self.filter_desc_ := by
  unfold Reshape
  dsimp only
  split <;> rfl

theorem Reshape_bottom_desc (lib : Cudnn) (self : CudaConv3DLayerAcc) (input output : Blob)
    (dev : Device) :
    (Reshape lib self input output dev).2.1.bottom_desc_ = input.dims.toList := by
  unfold Reshape
  dsimp only
  split <;> rfl

theorem Reshape_workspace_size (lib : Cudnn) (self : CudaConv3DLayerAcc) (input output : Blob)
    (dev : Device) :
    (Reshape lib self input output dev).2.1.workspace_size_ =
      max self.workspace_size_
        (neededWorkspaceSize lib self.filter_desc_ self.conv_desc_ input) := by
  unfold Reshape neededWorkspaceSize
  dsimp only
  split
  · next h => exact (max_eq_right (Nat.le_of_lt h)).symm
  · next h => exact (max_eq_left (Nat.le_of_not_lt h)).symm

/-- A call whose requirement does not exceed the current size leaves the
workspace pointer, the size and the device untouched. -/
theorem Reshape_keeps_workspace (lib : Cudnn) (self : CudaConv3DLayerAcc) (input output : Blob)
    (dev : Device)
    (h : neededWorkspaceSize lib self.filter_desc_ self.conv_desc_ input ≤ self.workspace_size_) :
    (Reshape lib self input output dev).2.1.workspace_data_ = self.workspace_data_ ∧
    (Reshape lib self input output dev).2.1.workspace_size_ = self.workspace_size_ ∧
    (Reshape lib self input output dev).2.2 = dev := by
  unfold Reshape
  dsimp only
  split
  · next hlt => exact absurd h (Nat.not_le.mpr hlt)
  · exact ⟨rfl, rfl, rfl⟩

/-- A call whose requirement exceeds the current size frees the old buffer,
if there is one, and allocates a new one of the required size. -/
theorem Reshape_grows_workspace (lib : Cudnn) (self : CudaConv3DLayerAcc) (input output : Blob)
    (dev : Device)
    (h : self.workspace_size_ < neededWorkspaceSize lib self.filter_desc_ self.conv_desc_ input) :
    (Reshape lib self input output dev).2.1.workspace_size_ =
      neededWorkspaceSize lib self.filter_desc_ self.conv_desc_ input ∧
    (Reshape lib self input output dev).2.1.workspace_data_ = dev.next + 1 ∧
    (Reshape lib self input output dev).2.2 =
      (cudaMalloc (if self.workspace_data_ ≠ 0 then cudaFree dev self.workspace_data_ else dev)
        (neededWorkspaceSize lib self.filter_desc_ self.conv_desc_ input)).2 := by
  unfold Reshape
  dsimp only
  split
  · refine ⟨rfl, ?_, rfl⟩
    dsimp only [cudaMalloc]
    split <;> rfl
  · next hge => exact absurd h hge

theorem ReshapeAll_nil (lib : Cudnn) (st : CudaConv3DLayerAcc × Device) :
    ReshapeAll lib st [] = st := rfl

theorem ReshapeAll_cons (lib : Cudnn) (st : CudaConv3DLayerAcc × Device) (c : Blob × Blob)
    (calls : List (Blob × Blob)) :
    ReshapeAll lib st (c :: calls) = ReshapeAll lib (Reshape lib st.1 c.1 c.2 st.2).2 calls := rfl

theorem ReshapeAll_workspace_size (lib : Cudnn) (calls : List (Blob × Blob)) :
    ∀ st : CudaConv3DLayerAcc × Device,
      (ReshapeAll lib st calls).1.workspace_size_ =
        (calls.map (fun c => neededWorkspaceSize lib st.1.filter_desc_ st.1.conv_desc_ c.1)).foldl
          max st.1.workspace_size_ := by
  induction calls with
  | nil => intro st; rfl
  | cons c calls ih =>
    intro st
    rw [ReshapeAll_cons, ih, Reshape_filter_desc, Reshape_conv_desc, Reshape_workspace_size]
    rfl

theorem ReshapeAll_append (lib : Cudnn) (st : CudaConv3DLayerAcc × Device)
    (calls : List (Blob × Blob)) (c : Blob × Blob) :
    ReshapeAll lib st (calls ++ [c]) =
      (Reshape lib (ReshapeAll lib st calls).1 c.1 c.2 (ReshapeAll lib st calls).2).2 := by
  unfold ReshapeAll
  rw [List.foldl_append]
  rfl

theorem ReshapeAll_descs (lib : Cudnn) (calls : List (Blob × Blob)) :
    ∀ st : CudaConv3DLayerAcc × Device,
      (ReshapeAll lib st calls).1.filter_desc_ = st.1.filter_desc_ ∧
      (ReshapeAll lib st calls).1.conv_desc_ = st.1.conv_desc_ := by
  induction calls with
  | nil => intro st; exact ⟨rfl, rfl⟩
  | cons c calls ih =>
    intro st
    rw [ReshapeAll_cons]
    refine ⟨(ih _).1.trans (Reshape_filter_desc _ _ _ _ _),
      (ih _).2.trans (Reshape_conv_desc _ _ _ _ _)⟩

theorem Forward_status (lib : Cudnn) (self : CudaConv3DLayerAcc) (input output : Blob)
    (dev : Device) : (Forward lib self input output dev).1 = Status.TNN_OK := by
  unfold Forward
  dsimp only
  split <;> rfl

/-! ## Facts about the device double and about `Init` -/

theorem toSizeT_mul_four (c : Int) : (toSizeT c * 4) % 2 ^ 64 = toSizeT (c * 4) := by
  unfold toSizeT
  omega

theorem toSizeT_ne_of_ne (c b : Int) (hc : IsInt c) (hb : IsInt b) (hne : c * 4 ≠ b) :
    (toSizeT c * 4) % 2 ^ 64 ≠ toSizeT b := by
  unfold IsInt at hc hb
  unfold toSizeT
  omega

theorem cudaMemcpy_fresh (dev : Device) (size : Nat) (src : List (Option ℚ)) (hwf : dev.WF) :
    (cudaMemcpy (cudaMalloc dev size).2 (cudaMalloc dev size).1 src).live =
      dev.live ++ [⟨dev.next + 1, size, src⟩] := by
  unfold cudaMemcpy cudaMalloc
  simp only [List.map_append, List.map_cons, List.map_nil, if_true]
  congr 1
  conv_rhs => rw [← List.map_id dev.live]
  apply List.map_congr_left
  intro b hb
  have := hwf b hb
  rw [if_neg (by omega)]
  rfl

theorem cudaFree_fresh (live : List DevBuf) (n p size : Nat) (src : List (Option ℚ))
    (hwf : ∀ b ∈ live, b.ptr ≤ n) (hp : n < p) :
    (cudaFree ⟨p, live ++ [⟨p, size, src⟩]⟩ p).live = live := by
  unfold cudaFree
  simp only [List.filter_append, List.filter_cons, List.filter_nil, ne_eq, not_true_eq_false,
    decide_False, Bool.false_eq_true, if_false, List.append_nil]
  rw [List.filter_eq_self]
  intro b hb
  have := hwf b hb
  simp only [decide_eq_true_eq]
  omega

theorem InitStage_fst (self : CudaConv3DLayerAcc) (conv_param : ConvLayerParam)
    (conv_resource : ConvLayerResource) (input output : Blob) (dev : Device) :
    (InitStage self conv_param conv_resource input output dev).1 =
      { alpha_ := 1
        beta_ := 0
        workspace_data_ := 0
        workspace_size_ := 0
        weights_ := dev.next + 1
        bias_ := 0
        bias_term_ := false
        blob_info_ := FetchDimensions input output
        kernel_ := conv_param.kernel
        bottom_desc_ := []
        top_desc_ := []
        bias_desc_ := self.bias_desc_
        filter_desc_ := filter_dims (FetchDimensions input output) conv_param.kernel
        conv_desc_ := ConvDesc.mk conv_param.kernel.groups
          [conv_param.kernel.pad_f, conv_param.kernel.pad_t, conv_param.kernel.pad_l]
          [conv_param.kernel.stride_d, conv_param.kernel.stride_h, conv_param.kernel.stride_w]
          [conv_param.kernel.dilation_d, conv_param.kernel.dilation_h,
            conv_param.kernel.dilation_w]
        conv_algo_ := self.conv_algo_ } := rfl

theorem InitStage_snd (self : CudaConv3DLayerAcc) (conv_param : ConvLayerParam)
    (conv_resource : ConvLayerResource) (input output : Blob) (dev : Device) :
    (InitStage self conv_param conv_resource input output dev).2 =
      cudaMemcpy (cudaMalloc dev (weights_size (FetchDimensions input output) conv_param.kernel)).2
        (dev.next + 1)
        (hostRead conv_resource.filter_handle
          (weights_size (FetchDimensions input output) conv_param.kernel)) := rfl

theorem InitStage_next (self : CudaConv3DLayerAcc) (conv_param : ConvLayerParam)
    (conv_resource : ConvLayerResource) (input output : Blob) (dev : Device) :
    (InitStage self conv_param conv_resource input output dev).2.next = dev.next + 1 := rfl

/-- The outcome of `Init` when the bias flag is set and the size check
fails. -/
theorem Init_mismatch (lib : Cudnn) (self : CudaConv3DLayerAcc) (conv_param : ConvLayerParam)
    (conv_resource : ConvLayerResource) (input output : Blob) (dev : Device)
    (hb : conv_param.bias = true)
    (hne : (toSizeT output.dims.channels * 4) % 2 ^ 64 ≠
      toSizeT conv_resource.bias_handle.bytes_size) :
    Init lib self conv_param conv_resource input output dev =
      (Status.TNNERR_MODEL_ERR,
        { (InitStage self conv_param conv_resource input output dev).1 with bias_term_ := true },
        (InitStage self conv_param conv_resource input output dev).2) := by
  unfold Init
  dsimp only
  rw [if_pos hb]
  split
  · rfl
  · next h => exact absurd hne h

/-- The outcome of `Init` when the bias flag is clear. -/
theorem Init_no_bias (lib : Cudnn) (self : CudaConv3DLayerAcc) (conv_param : ConvLayerParam)
    (conv_resource : ConvLayerResource) (input output : Blob) (dev : Device)
    (hb : conv_param.bias = false) :
    Init lib self conv_param conv_resource input output dev =
      Reshape lib (InitStage self conv_param conv_resource input output dev).1 input output
        (InitStage self conv_param conv_resource input output dev).2 := by
  unfold Init
  dsimp only
  rw [if_neg (by simp [hb])]

/-- The outcome of `Init` when the bias flag is set and the size check
passes. -/
theorem Init_bias (lib : Cudnn) (self : CudaConv3DLayerAcc) (conv_param : ConvLayerParam)
    (conv_resource : ConvLayerResource) (input output : Blob) (dev : Device)
    (hb : conv_param.bias = true)
    (heq : (toSizeT output.dims.channels * 4) % 2 ^ 64 =
      toSizeT conv_resource.bias_handle.bytes_size) :
    Init lib self conv_param conv_resource input output dev =
      Reshape lib
        { (InitStage self conv_param conv_resource input output dev).1 with
          bias_term_ := true
          bias_desc_ := [1, output.dims.channels, 1, 1, 1]
          bias_ := dev.next + 2 }
        input output
        (cudaMemcpy
          (cudaMalloc (InitStage self conv_param conv_resource input output dev).2
            (toSizeT conv_resource.bias_handle.bytes_size)).2
          (dev.next + 2)
          (hostRead conv_resource.bias_handle
            (toSizeT conv_resource.bias_handle.bytes_size))) := by
  unfold Init
  dsimp only
  rw [if_pos hb]
  split
  · next h => exact absurd heq h
  · rfl

theorem Reshape_conv_algo (lib : Cudnn) (self : CudaConv3DLayerAcc) (input output : Blob)
    (dev : Device) :
    (Reshape lib self input output dev).2.1.conv_algo_ =
      lib.GetConvolutionForwardAlgorithm input.dims.toList self.filter_desc_ self.conv_desc_
        (cudnnGetConvolutionNdForwardOutputDim self.conv_desc_ input.dims.toList
          self.filter_desc_) := by
  unfold Reshape
  dsimp only
  split <;> rfl

/-- After `Reshape` on an instance without a workspace, the workspace is as
large as the selected algorithm requires and, when that is more than nothing,
is a live device buffer of the recorded size. -/
theorem Reshape_workspace_ready (lib : Cudnn) (self : CudaConv3DLayerAcc) (input output : Blob)
    (dev : Device) (h0 : self.workspace_size_ = 0) (hd : self.workspace_data_ = 0) :
    (Reshape lib self input output dev).2.1.workspace_size_ =
      neededWorkspaceSize lib self.filter_desc_ self.conv_desc_ input ∧
    (0 < (Reshape lib self input output dev).2.1.workspace_size_ →
      (Reshape lib self input output dev).2.1.workspace_data_ ≠ 0 ∧
      (⟨(Reshape lib self input output dev).2.1.workspace_data_,
        (Reshape lib self input output dev).2.1.workspace_size_, []⟩ : DevBuf) ∈
          (Reshape lib self input output dev).2.2.live) := by
  have hsz := Reshape_workspace_size lib self input output dev
  rw [h0, Nat.zero_max] at hsz
  refine ⟨hsz, fun hpos => ?_⟩
  rw [hsz] at hpos
  have hg := Reshape_grows_workspace lib self input output dev (by rw [h0]; exact hpos)
  rw [hg.2.1, hg.2.2, hg.1, hd]
  refine ⟨Nat.succ_ne_zero _, ?_⟩
  simp [cudaMalloc]

theorem Init_filter_desc (lib : Cudnn) (self : CudaConv3DLayerAcc) (conv_param : ConvLayerParam)
    (conv_resource : ConvLayerResource) (input output : Blob) (dev : Device) :
    (Init lib self conv_param conv_resource input output dev).2.1.filter_desc_ =
      filter_dims (FetchDimensions input output) conv_param.kernel := by
  unfold Init
  dsimp only
  split
  · split
    · rfl
    · rw [Reshape_filter_desc]; rfl
  · rw [Reshape_filter_desc]; rfl

theorem Init_conv_desc (lib : Cudnn) (self : CudaConv3DLayerAcc) (conv_param : ConvLayerParam)
    (conv_resource : ConvLayerResource) (input output : Blob) (dev : Device) :
    (Init lib self conv_param conv_resource input output dev).2.1.conv_desc_ =
      ConvDesc.mk conv_param.kernel.groups
        [conv_param.kernel.pad_f, conv_param.kernel.pad_t, conv_param.kernel.pad_l]
        [conv_param.kernel.stride_d, conv_param.kernel.stride_h, conv_param.kernel.stride_w]
        [conv_param.kernel.dilation_d, conv_param.kernel.dilation_h,
          conv_param.kernel.dilation_w] := by
  unfold Init
  dsimp only
  split
  · split
    · rfl
    · rw [Reshape_conv_desc]; rfl
  · rw [Reshape_conv_desc]; rfl

/-- `Init` whose size check passes is `Reshape` on an instance that has no
workspace yet. -/
theorem Init_eq_Reshape (lib : Cudnn) (self : CudaConv3DLayerAcc) (conv_param : ConvLayerParam)
    (conv_resource : ConvLayerResource) (input output : Blob) (dev : Device)
    (hmatch : conv_param.bias = true →
      output.dims.channels * 4 = conv_resource.bias_handle.bytes_size) :
    ∃ (pre : CudaConv3DLayerAcc) (dpre : Device),
      Init lib self conv_param conv_resource input output dev =
        Reshape lib pre input output dpre ∧
      pre.workspace_size_ = 0 ∧ pre.workspace_data_ = 0 ∧ pre.weights_ = dev.next + 1 ∧
      pre.bias_term_ = conv_param.bias ∧ pre.alpha_ = 1 ∧ pre.beta_ = 0 ∧
      pre.filter_desc_ = filter_dims (FetchDimensions input output) conv_param.kernel := by
  cases hb : conv_param.bias with
  | false =>
    exact ⟨_, _, Init_no_bias lib self conv_param conv_resource input output dev hb,
      rfl, rfl, rfl, rfl, rfl, rfl, rfl⟩
  | true =>
    have heq : (toSizeT output.dims.channels * 4) % 2 ^ 64 =
        toSizeT conv_resource.bias_handle.bytes_size := by
      rw [toSizeT_mul_four, hmatch hb]
    exact ⟨_, _, Init_bias lib self conv_param conv_resource input output dev hb heq,
      rfl, rfl, rfl, rfl, rfl, rfl, rfl⟩

/-! ## Reading device buffers -/

theorem read_cudaMalloc_ne (dev : Device) (size p : Nat) (hp : p ≠ dev.next + 1) :
    (cudaMalloc dev size).2.read p = dev.read p := by
  unfold Device.read cudaMalloc
  simp only [List.find?_append, List.find?_cons, List.find?_nil]
  have hnp : decide (dev.next + 1 = p) = false := by
    simp only [decide_eq_false_iff_not]
    exact fun h => hp h.symm
  rw [hnp]
  cases List.find? (fun b => decide (b.ptr = p)) dev.live <;> rfl

theorem find_map_memcpy_ne (q p : Nat) (src : List (Option ℚ)) (hp : p ≠ q) :
    ∀ live : List DevBuf,
      ((live.map (fun b => if b.ptr = q then { b with data := src } else b)).find?
        (fun b => decide (b.ptr = p))) = live.find? (fun b => decide (b.ptr = p)) := by
  intro live
  induction live with
  | nil => rfl
  | cons b live ih =>
    rw [List.map_cons, List.find?_cons, List.find?_cons, ih]
    by_cases hq : b.ptr = q
    · rw [if_pos hq]
      have h1 : decide (b.ptr = p) = false := by
        simp only [decide_eq_false_iff_not]
        omega
      simp only [h1]
    · rw [if_neg hq]

theorem read_cudaMemcpy_ne (dev : Device) (q p : Nat) (src : List (Option ℚ)) (hp : p ≠ q) :
    (cudaMemcpy dev q src).read p = dev.read p := by
  unfold Device.read cudaMemcpy
  dsimp only
  rw [find_map_memcpy_ne q p src hp]

theorem find_map_memcpy_eq (p : Nat) (src : List (Option ℚ)) :
    ∀ live : List DevBuf, (∃ b ∈ live, b.ptr = p) →
      ∃ c, ((live.map (fun b => if b.ptr = p then { b with data := src } else b)).find?
        (fun b => decide (b.ptr = p))) = some c ∧ c.data = src := by
  intro live
  induction live with
  | nil => rintro ⟨b, hb, -⟩; cases hb
  | cons b live ih =>
    intro hex
    rw [List.map_cons, List.find?_cons]
    by_cases hq : b.ptr = p
    · rw [if_pos hq]
      have h1 : decide (b.ptr = p) = true := by simp only [decide_eq_true_eq]; exact hq
      simp only [h1]
      exact ⟨_, rfl, rfl⟩
    · rw [if_neg hq]
      have h1 : decide (b.ptr = p) = false := by simp only [decide_eq_false_iff_not]; exact hq
      simp only [h1]
      apply ih
      obtain ⟨c, hc, hcp⟩ := hex
      rcases List.mem_cons.mp hc with rfl | hc
      · exact absurd hcp hq
      · exact ⟨c, hc, hcp⟩

theorem read_cudaMemcpy_malloc (dev : Device) (size : Nat) (src : List (Option ℚ)) :
    (cudaMemcpy (cudaMalloc dev size).2 (dev.next + 1) src).read (dev.next + 1) = src := by
  unfold Device.read cudaMemcpy
  dsimp only
  obtain ⟨c, hc, hdata⟩ := find_map_memcpy_eq (dev.next + 1) src (cudaMalloc dev size).2.live
    ⟨⟨dev.next + 1, size, []⟩, by simp [cudaMalloc], rfl⟩
  rw [hc]
  exact hdata

theorem Reshape_next (lib : Cudnn) (self : CudaConv3DLayerAcc) (input output : Blob)
    (dev : Device) (p : Nat) (hd : self.workspace_data_ = 0) (hp : p ≤ dev.next) :
    (Reshape lib self input output dev).2.2.read p = dev.read p := by
  unfold Reshape
  dsimp only
  split
  · dsimp only
    rw [if_neg (by simp [hd])]
    exact read_cudaMalloc_ne dev _ p (by omega)
  · rfl

theorem Reshape_members (lib : Cudnn) (self : CudaConv3DLayerAcc) (input output : Blob)
    (dev : Device) :
    (Reshape lib self input output dev).2.1.alpha_ = self.alpha_ ∧
    (Reshape lib self input output dev).2.1.beta_ = self.beta_ ∧
    (Reshape lib self input output dev).2.1.bias_term_ = self.bias_term_ ∧
    (Reshape lib self input output dev).2.1.weights_ = self.weights_ ∧
    (Reshape lib self input output dev).2.1.bias_ = self.bias_ ∧
    (Reshape lib self input output dev).2.1.bias_desc_ = self.bias_desc_ := by
  unfold Reshape
  dsimp only
  split <;> exact ⟨rfl, rfl, rfl, rfl, rfl, rfl⟩

/-- On every path through `Init` the scaling factors are 1 and 0, the bias
flag of the instance is the one of the configuration, and `weights_` is the
buffer that holds what was read from the host weights. -/
theorem Init_members (lib : Cudnn) (self : CudaConv3DLayerAcc) (conv_param : ConvLayerParam)
    (conv_resource : ConvLayerResource) (input output : Blob) (dev : Device) :
    (Init lib self conv_param conv_resource input output dev).2.1.alpha_ = 1 ∧
    (Init lib self conv_param conv_resource input output dev).2.1.beta_ = 0 ∧
    (Init lib self conv_param conv_resource input output dev).2.1.bias_term_ =
      conv_param.bias ∧
    (Init lib self conv_param conv_resource input output dev).2.2.read
      (Init lib self conv_param conv_resource input output dev).2.1.weights_ =
        hostRead conv_resource.filter_handle
          (weights_size (FetchDimensions input output) conv_param.kernel) := by
  have hst : (InitStage self conv_param conv_resource input output dev).2.read (dev.next + 1) =
      hostRead conv_resource.filter_handle
        (weights_size (FetchDimensions input output) conv_param.kernel) := by
    rw [InitStage_snd]
    exact read_cudaMemcpy_malloc dev _ _
  cases hb : conv_param.bias with
  | false =>
    rw [Init_no_bias lib self conv_param conv_resource input output dev hb]
    have hm := Reshape_members lib (InitStage self conv_param conv_resource input output dev).1
      input output (InitStage self conv_param conv_resource input output dev).2
    refine ⟨hm.1, hm.2.1, hm.2.2.1, ?_⟩
    rw [hm.2.2.2.1]
    rw [show (InitStage self conv_param conv_resource input output dev).1.weights_ =
      dev.next + 1 from rfl]
    rw [Reshape_next _ _ _ _ _ _ rfl (Nat.le_of_eq (InitStage_next _ _ _ _ _ _).symm)]
    exact hst
  | true =>
    by_cases hne : (toSizeT output.dims.channels * 4) % 2 ^ 64 =
        toSizeT conv_resource.bias_handle.bytes_size
    · rw [Init_bias lib self conv_param conv_resource input output dev hb hne]
      have hm := Reshape_members lib
        { (InitStage self conv_param conv_resource input output dev).1 with
          bias_term_ := true
          bias_desc_ := [1, output.dims.channels, 1, 1, 1]
          bias_ := dev.next + 2 }
        input output
        (cudaMemcpy
          (cudaMalloc (InitStage self conv_param conv_resource input output dev).2
            (toSizeT conv_resource.bias_handle.bytes_size)).2
          (dev.next + 2)
          (hostRead conv_resource.bias_handle
            (toSizeT conv_resource.bias_handle.bytes_size)))
      refine ⟨hm.1, hm.2.1, hm.2.2.1, ?_⟩
      rw [hm.2.2.2.1]
      rw [show ({ (InitStage self conv_param conv_resource input output dev).1 with
          bias_term_ := true
          bias_desc_ := [1, output.dims.channels, 1, 1, 1]
          bias_ := dev.next + 2 } : CudaConv3DLayerAcc).weights_ = dev.next + 1 from rfl]
      rw [Reshape_next _ _ _ _ _ _ rfl (by
        show dev.next + 1 ≤ dev.next + 1 + 1
        omega)]
      rw [read_cudaMemcpy_ne _ _ _ _ (by omega)]
      rw [read_cudaMalloc_ne _ _ _ (by rw [InitStage_next]; omega)]
      exact hst
    · rw [Init_mismatch lib self conv_param conv_resource input output dev hb hne]
      exact ⟨rfl, rfl, rfl, hst⟩

/-- After an `Init` whose bias branch ran to the end, the bias descriptor is
[1, output_c, 1, 1, 1] and `bias_` holds what was read from the host bias
buffer. -/
theorem Init_bias_members (lib : Cudnn) (self : CudaConv3DLayerAcc)
    (conv_param : ConvLayerParam) (conv_resource : ConvLayerResource) (input output : Blob)
    (dev : Device) (hb : conv_param.bias = true)
    (heq : (toSizeT output.dims.channels * 4) % 2 ^ 64 =
      toSizeT conv_resource.bias_handle.bytes_size) :
    (Init lib self conv_param conv_resource input output dev).2.1.bias_desc_ =
      [1, output.dims.channels, 1, 1, 1] ∧
    (Init lib self conv_param conv_resource input output dev).2.2.read
      (Init lib self conv_param conv_resource input output dev).2.1.bias_ =
        hostRead conv_resource.bias_handle (toSizeT conv_resource.bias_handle.bytes_size) := by
  rw [Init_bias lib self conv_param conv_resource input output dev hb heq]
  have hm := Reshape_members lib
    { (InitStage self conv_param conv_resource input output dev).1 with
      bias_term_ := true
      bias_desc_ := [1, output.dims.channels, 1, 1, 1]
      bias_ := dev.next + 2 }
    input output
    (cudaMemcpy
      (cudaMalloc (InitStage self conv_param conv_resource input output dev).2
        (toSizeT conv_resource.bias_handle.bytes_size)).2
      (dev.next + 2)
      (hostRead conv_resource.bias_handle
        (toSizeT conv_resource.bias_handle.bytes_size)))
  refine ⟨hm.2.2.2.2.2, ?_⟩
  rw [hm.2.2.2.2.1]
  rw [show ({ (InitStage self conv_param conv_resource input output dev).1 with
      bias_term_ := true
      bias_desc_ := [1, output.dims.channels, 1, 1, 1]
      bias_ := dev.next + 2 } : CudaConv3DLayerAcc).bias_ = dev.next + 2 from rfl]
  rw [Reshape_next _ _ _ _ _ _ rfl (by
    show dev.next + 2 ≤ dev.next + 1 + 1
    omega)]
  exact read_cudaMemcpy_malloc (InitStage self conv_param conv_resource input output dev).2 _ _

/-! ## Bias addition -/

theorem getD_map_range (n i : Nat) (f : Nat → Option ℚ) (hi : i < n) :
    ((List.range n).map f).getD i none = f i := by
  simp [List.getD, List.getElem?_map, List.getElem?_range, hi]

theorem blend_one_one (a c : Option ℚ) :
    blend 1 1 a c = a.bind (fun b => c.map (fun v => v + b)) := by
  unfold blend
  rw [if_neg one_ne_zero]
  cases a with
  | none => rfl
  | some r =>
    cases c with
    | none => rfl
    | some p => simp [add_comm]

theorem blend_one_zero (a c : Option ℚ) : blend 1 0 a c = a := by
  unfold blend
  rw [if_pos rfl]
  cases a <;> simp

theorem toNat_mul_of_nonneg (c x : Int) (hc : 0 ≤ c) : (c * x).toNat = c.toNat * x.toNat := by
  obtain ⟨k, rfl⟩ := Int.eq_ofNat_of_zero_le hc
  rcases le_or_lt 0 x with hx | hx
  · obtain ⟨m, rfl⟩ := Int.eq_ofNat_of_zero_le hx
    have hkm : ((k : Int) * (m : Int)) = ((k * m : Nat) : Int) := by push_cast; rfl
    rw [hkm, Int.toNat_natCast, Int.toNat_natCast, Int.toNat_natCast]
  · have h1 : ((k : Int) * x).toNat = 0 := by
      apply Int.toNat_eq_zero.mpr
      exact mul_nonpos_of_nonneg_of_nonpos hc (le_of_lt hx)
    have h2 : x.toNat = 0 := Int.toNat_eq_zero.mpr (le_of_lt hx)
    rw [h1, h2, Nat.mul_zero]

theorem numel_channels (c d h w : Int) (hc : 0 ≤ c) :
    numel [c, d, h, w] = c.toNat * numel [d, h, w] := by
  unfold numel
  simp only [List.foldl_cons, List.foldl_nil, one_mul]
  rw [← toNat_mul_of_nonneg c (d * h * w) hc]
  congr 1
  ring

theorem numel_ones : numel [1, 1, 1] = 1 := by decide

/-- Broadcasting a `[1, c, 1, 1, 1]` tensor over `[n, c, d, h, w]` picks the
element of the channel. -/
theorem broadcastIndex_bias (n c d h w : Int) (i : Nat) (hc : 0 ≤ c) :
    broadcastIndex [1, c, 1, 1, 1] [n, c, d, h, w] i = channelOf [n, c, d, h, w] i := by
  unfold channelOf
  simp only [broadcastIndex, if_true, Nat.zero_mul, Nat.zero_add, Nat.add_zero, numel_ones,
    Nat.mul_one, List.drop_succ_cons, List.drop_zero, List.getD_cons_succ, List.getD_cons_zero]
  rw [numel_channels c d h w hc]
  by_cases h1 : c = 1
  · rw [if_pos h1, h1]
    simp [Nat.mod_one]
  · rw [if_neg h1, Nat.mod_mul_left_div_self]

theorem numel_top_zero (n d h w : Int) : numel [n, 0, d, h, w] = 0 := by
  unfold numel
  simp

theorem hostRead_getD (buf : RawBuffer) (c : Int) (hc : 0 ≤ c) (hi : IsInt c) (k : Nat)
    (hk : k < c.toNat) :
    (hostRead buf (toSizeT (c * 4))).getD k none = buf.data.get? k := by
  unfold hostRead
  have hsz : toSizeT (c * 4) / 4 = c.toNat := by
    unfold IsInt at hi
    unfold toSizeT
    omega
  rw [hsz]
  exact getD_map_range _ _ _ hk

theorem Forward_eq (lib : Cudnn) (self : CudaConv3DLayerAcc) (x y : Blob) (dev : Device) :
    Forward lib self x y dev =
      (Status.TNN_OK,
        if self.bias_term_ = true then
          cudnnAddTensor 1 self.bias_desc_ (dev.read self.bias_) 1 self.top_desc_
            (cudnnConvolutionForward lib self.alpha_ self.bottom_desc_ x.base self.filter_desc_
              (dev.read self.weights_) self.conv_desc_ self.conv_algo_ self.beta_ self.top_desc_
              y.base)
        else
          cudnnConvolutionForward lib self.alpha_ self.bottom_desc_ x.base self.filter_desc_
            (dev.read self.weights_) self.conv_desc_ self.conv_algo_ self.beta_ self.top_desc_
            y.base) := by
  unfold Forward
  dsimp only
  split <;> rfl

/-- The shape-dependent members after an `Init` that reaches its final
`Reshape`. -/
theorem Init_shape_members (lib : Cudnn) (self : CudaConv3DLayerAcc)
    (conv_param : ConvLayerParam) (conv_resource : ConvLayerResource) (input output : Blob)
    (dev : Device)
    (hmatch : conv_param.bias = true →
      (toSizeT output.dims.channels * 4) % 2 ^ 64 =
        toSizeT conv_resource.bias_handle.bytes_size) :
    (Init lib self conv_param conv_resource input output dev).2.1.bottom_desc_ =
      input.dims.toList ∧
    (Init lib self conv_param conv_resource input output dev).2.1.top_desc_ =
      [input.dims.batch, output.dims.channels,
        convOutputSize input.dims.depth conv_param.kernel.kernel_d conv_param.kernel.pad_f
          conv_param.kernel.stride_d conv_param.kernel.dilation_d,
        convOutputSize input.dims.height conv_param.kernel.kernel_h conv_param.kernel.pad_t
          conv_param.kernel.stride_h conv_param.kernel.dilation_h,
        convOutputSize input.dims.width conv_param.kernel.kernel_w conv_param.kernel.pad_l
          conv_param.kernel.stride_w conv_param.kernel.dilation_w] ∧
    (Init lib self conv_param conv_resource input output dev).2.1.conv_algo_ =
      lib.GetConvolutionForwardAlgorithm input.dims.toList
        (filter_dims (FetchDimensions input output) conv_param.kernel)
        (ConvDesc.mk conv_param.kernel.groups
          [conv_param.kernel.pad_f, conv_param.kernel.pad_t, conv_param.kernel.pad_l]
          [conv_param.kernel.stride_d, conv_param.kernel.stride_h, conv_param.kernel.stride_w]
          [conv_param.kernel.dilation_d, conv_param.kernel.dilation_h,
            conv_param.kernel.dilation_w])
        [input.dims.batch, output.dims.channels,
          convOutputSize input.dims.depth conv_param.kernel.kernel_d conv_param.kernel.pad_f
            conv_param.kernel.stride_d conv_param.kernel.dilation_d,
          convOutputSize input.dims.height conv_param.kernel.kernel_h conv_param.kernel.pad_t
            conv_param.kernel.stride_h conv_param.kernel.dilation_h,
          convOutputSize input.dims.width conv_param.kernel.kernel_w conv_param.kernel.pad_l
            conv_param.kernel.stride_w conv_param.kernel.dilation_w] := by
  cases hb : conv_param.bias with
  | false =>
    rw [Init_no_bias lib self conv_param conv_resource input output dev hb]
    exact ⟨Reshape_bottom_desc _ _ _ _ _, Reshape_top_desc _ _ _ _ _,
      Reshape_conv_algo _ _ _ _ _⟩
  | true =>
    rw [Init_bias lib self conv_param conv_resource input output dev hb (hmatch hb)]
    exact ⟨Reshape_bottom_desc _ _ _ _ _, Reshape_top_desc _ _ _ _ _,
      Reshape_conv_algo _ _ _ _ _⟩

/-! ## `GetItems` -/

theorem getD_append_cons (pre rest : List Char) (c d : Char) :
    (pre ++ c :: rest).getD pre.length d = c := by
  induction pre with
  | nil => rfl
  | cons a pre ih => simpa using ih

theorem getD_map_succ (x : Option Nat) (n : Nat) : (x.map (· + 1)).getD (n + 1) = x.getD n + 1 := by
  cases x <;> rfl

/-- The loop of `GetItems` when the item number is at least 2: started at
offset `pre.length` with `count` spaces seen, it stops just after the space
that brings the counter to `item - 1`, or at the end of the buffer when
there is no such space. -/
theorem GetItemsLoop_spec (item : Nat) (h2 : 2 ≤ item) (hitem : item < 2 ^ 32) :
    ∀ (rest pre : List Char) (count : Nat), count < item - 1 →
      GetItemsLoop (pre ++ rest) item rest.length pre.length count =
        pre.length + (afterSpace rest (item - 1 - count)).getD rest.length := by
  have htarget : (item + 2 ^ 32 - 1) % 2 ^ 32 = item - 1 := by omega
  intro rest
  induction rest with
  | nil =>
    intro pre count hcount
    obtain ⟨k, hk⟩ : ∃ k, item - 1 - count = k + 1 := ⟨item - 1 - count - 1, by omega⟩
    rw [hk]
    rfl
  | cons c rest ih =>
    intro pre count hcount
    obtain ⟨k, hk⟩ : ∃ k, item - 1 - count = k + 1 := ⟨item - 1 - count - 1, by omega⟩
    have hpre : pre ++ c :: rest = (pre ++ [c]) ++ rest := by simp
    have hlen : (pre ++ [c]).length = pre.length + 1 := by simp
    rw [hk]
    simp only [List.length_cons, GetItemsLoop, getD_append_cons, afterSpace, htarget]
    have hmod : (count + 1) % 2 ^ 32 = count + 1 := by omega
    rw [hmod]
    by_cases hc : c = ' '
    · rw [if_pos hc, if_pos hc]
      by_cases hlast : count + 1 = item - 1
      · rw [if_pos hlast]
        have hk0 : k = 0 := by omega
        rw [hk0]
        cases rest <;> rfl
      · rw [if_neg hlast, hpre, ← hlen, ih (pre ++ [c]) (count + 1) (by omega), hlen,
          getD_map_succ]
        have hk1 : item - 1 - (count + 1) = k := by omega
        rw [hk1]
        omega
    · rw [if_neg hc, if_neg hc, hpre, ← hlen, ih (pre ++ [c]) count hcount, hlen, hk,
        getD_map_succ]
      omega

/-- The loop of `GetItems` when the item number is 1: the counter is compared
with 0 only after it has been incremented, so the loop runs to the end of
the buffer. -/
theorem GetItemsLoop_one :
    ∀ (fuel : Nat) (buffer : List Char) (p count : Nat), count + fuel < 2 ^ 32 →
      GetItemsLoop buffer 1 fuel p count = p + fuel := by
  intro fuel
  induction fuel with
  | zero => intro buffer p count _; rfl
  | succ fuel ih =>
    intro buffer p count hlt
    have hmod : (count + 1) % 2 ^ 32 = count + 1 := by omega
    have hne : ¬ count + 1 = (1 + 2 ^ 32 - 1) % 2 ^ 32 := by omega
    simp only [GetItemsLoop, hmod, hne, if_false]
    split
    · rw [ih buffer (p + 1) (count + 1) (by omega)]; omega
    · rw [ih buffer (p + 1) count (by omega)]; omega

theorem toInt32_small (n : Nat) (h : n < 2 ^ 31) : (toInt32 n).toNat = n := by
  unfold toInt32
  have h1 : n % 2 ^ 32 = n := by omega
  rw [h1, if_pos h]
  exact Int.toNat_natCast n

/-- For an item number of at least 2, `GetItems` returns the position just
after the `(item - 1)`-th space, or the end of the buffer when the buffer has
fewer spaces. -/
theorem GetItems_from_second (buffer : List Char) (item : Nat) (h2 : 2 ≤ item)
    (hitem : item < 2 ^ 32) (hlen : buffer.length < 2 ^ 31) :
    GetItems buffer item = (afterSpace buffer (item - 1)).getD buffer.length := by
  unfold GetItems
  rw [toInt32_small _ hlen, Nat.mod_eq_of_lt hitem]
  have h := GetItemsLoop_spec item h2 hitem buffer [] 0 (by omega)
  simpa using h

/-- For item number 1, `GetItems` returns the end of the buffer. -/
theorem GetItems_one (buffer : List Char) (hlen : buffer.length < 2 ^ 31) :
    GetItems buffer 1 = buffer.length := by
  unfold GetItems
  rw [toInt32_small _ hlen]
  have h := GetItemsLoop_one buffer.length buffer 0 0 (by omega)
  simpa using h

/-! ## The size of the staged weights -/

/-- Without overflow, `weights_size` is the group count times the byte size
of the filter descriptor: the two agree exactly when there is one group. -/
theorem weights_size_grouped (blob_info : BlobInfo) (kernel : KernelInfo)
    (hg : 0 < kernel.groups) (hdiv : kernel.groups ∣ blob_info.input_c)
    (hic : 0 ≤ blob_info.input_c) (hoc : 0 ≤ blob_info.output_c) (hd : 0 ≤ kernel.kernel_d)
    (hh : 0 ≤ kernel.kernel_h) (hw : 0 ≤ kernel.kernel_w)
    (hbound : 4 * blob_info.input_c * blob_info.output_c * kernel.kernel_d * kernel.kernel_h *
      kernel.kernel_w < 2 ^ 64) :
    weights_size blob_info kernel =
      kernel.groups.toNat * (4 * numel (filter_dims blob_info kernel)) := by
  obtain ⟨q, hq⟩ := hdiv
  have hq0 : 0 ≤ q := by
    by_contra hneg
    have : kernel.groups * q < 0 := mul_neg_of_pos_of_neg hg (not_le.mp hneg)
    omega
  have htdiv : Int.tdiv blob_info.input_c kernel.groups = q := by
    rw [hq, Int.mul_tdiv_cancel_left _ (ne_of_gt hg)]
  have hP : 0 ≤ 4 * blob_info.input_c * blob_info.output_c * kernel.kernel_d * kernel.kernel_h *
      kernel.kernel_w := by positivity
  have hQ : 0 ≤ blob_info.output_c * q * kernel.kernel_d * kernel.kernel_h * kernel.kernel_w := by
    positivity
  unfold weights_size toSizeT filter_dims numel
  simp only [List.foldl_cons, List.foldl_nil, one_mul, htdiv]
  rw [Int.emod_eq_of_lt hP hbound]
  zify
  rw [Int.toNat_of_nonneg hP, Int.toNat_of_nonneg hQ, Int.toNat_of_nonneg (le_of_lt hg), hq]
  ring

/-! ## Settled claims -/

/-- C7: `Reshape` is idempotent.  Calling it a second time with the same
blobs returns `TNN_OK` and leaves every member (descriptors, selected
algorithm, workspace pointer and size) and the device exactly as the first
call left them, so the second call neither grows nor re-allocates the
workspace. -/
theorem Reshape_idempotent (lib : Cudnn) (self : CudaConv3DLayerAcc) (input output : Blob)
    (dev : Device) :
    Reshape lib (Reshape lib self input output dev).2.1 input output
        (Reshape lib self input output dev).2.2 =
      (Status.TNN_OK, (Reshape lib self input output dev).2.1,
        (Reshape lib self input output dev).2.2) := by
  unfold Reshape
  dsimp only
  split
  · simp only [Nat.lt_irrefl, if_false]
  · next h => simp only [h, if_false]


/-- C1: monotonic workspace growth.  On an instance whose workspace size is
0, after any sequence of `Reshape` calls the recorded workspace size is the
maximum of the requirements of the calls made so far; one more call never
lowers it, leaves buffer and device untouched when its requirement does not
exceed the current size, and otherwise frees the old buffer (if any) and
allocates one of exactly the required size.  Requirements 1000, 500, 2000
give the sizes 1000, 1000, 2000. -/
theorem Reshape_workspace_monotonic (lib : Cudnn) (self : CudaConv3DLayerAcc) (dev : Device)
    (h0 : self.workspace_size_ = 0) :
    (∀ calls : List (Blob × Blob),
      (ReshapeAll lib (self, dev) calls).1.workspace_size_ =
        (calls.map
          (fun c => neededWorkspaceSize lib self.filter_desc_ self.conv_desc_ c.1)).foldl max 0) ∧
    (∀ (calls : List (Blob × Blob)) (c : Blob × Blob),
      (ReshapeAll lib (self, dev) calls).1.workspace_size_ ≤
        (ReshapeAll lib (self, dev) (calls ++ [c])).1.workspace_size_ ∧
      (neededWorkspaceSize lib self.filter_desc_ self.conv_desc_ c.1 ≤
          (ReshapeAll lib (self, dev) calls).1.workspace_size_ →
        (ReshapeAll lib (self, dev) (calls ++ [c])).1.workspace_data_ =
          (ReshapeAll lib (self, dev) calls).1.workspace_data_ ∧
        (ReshapeAll lib (self, dev) (calls ++ [c])).2 = (ReshapeAll lib (self, dev) calls).2) ∧
      ((ReshapeAll lib (self, dev) calls).1.workspace_size_ <
          neededWorkspaceSize lib self.filter_desc_ self.conv_desc_ c.1 →
        (ReshapeAll lib (self, dev) (calls ++ [c])).1.workspace_size_ =
          neededWorkspaceSize lib self.filter_desc_ self.conv_desc_ c.1 ∧
        (ReshapeAll lib (self, dev) (calls ++ [c])).1.workspace_data_ =
          (ReshapeAll lib (self, dev) calls).2.next + 1 ∧
        (ReshapeAll lib (self, dev) (calls ++ [c])).2 =
          (cudaMalloc
            (if (ReshapeAll lib (self, dev) calls).1.workspace_data_ ≠ 0 then
              cudaFree (ReshapeAll lib (self, dev) calls).2
                (ReshapeAll lib (self, dev) calls).1.workspace_data_
            else (ReshapeAll lib (self, dev) calls).2)
            (neededWorkspaceSize lib self.filter_desc_ self.conv_desc_ c.1)).2)) ∧
    (∀ c1 c2 c3 : Blob × Blob,
      neededWorkspaceSize lib self.filter_desc_ self.conv_desc_ c1.1 = 1000 →
      neededWorkspaceSize lib self.filter_desc_ self.conv_desc_ c2.1 = 500 →
      neededWorkspaceSize lib self.filter_desc_ self.conv_desc_ c3.1 = 2000 →
      (ReshapeAll lib (self, dev) [c1]).1.workspace_size_ = 1000 ∧
      (ReshapeAll lib (self, dev) [c1, c2]).1.workspace_size_ = 1000 ∧
      (ReshapeAll lib (self, dev) [c1, c2, c3]).1.workspace_size_ = 2000) := by
  have key : ∀ calls : List (Blob × Blob),
      (ReshapeAll lib (self, dev) calls).1.workspace_size_ =
        (calls.map
          (fun c => neededWorkspaceSize lib self.filter_desc_ self.conv_desc_ c.1)).foldl
            max 0 := by
    intro calls
    rw [ReshapeAll_workspace_size, h0]
  refine ⟨key, ?_, ?_⟩
  · intro calls c
    have hd := ReshapeAll_descs lib calls (self, dev)
    rw [ReshapeAll_append]
    refine ⟨?_, ?_, ?_⟩
    · rw [Reshape_workspace_size]
      exact le_max_left _ _
    · intro h
      have hk := Reshape_keeps_workspace lib (ReshapeAll lib (self, dev) calls).1 c.1 c.2
        (ReshapeAll lib (self, dev) calls).2 (by rw [hd.1, hd.2]; exact h)
      exact ⟨hk.1, hk.2.2⟩
    · intro h
      have hg := Reshape_grows_workspace lib (ReshapeAll lib (self, dev) calls).1 c.1 c.2
        (ReshapeAll lib (self, dev) calls).2 (by rw [hd.1, hd.2]; exact h)
      rw [hd.1, hd.2] at hg
      exact hg
  · intro c1 c2 c3 h1 h2 h3
    refine ⟨?_, ?_, ?_⟩
    · rw [key]; simp [h1]
    · rw [key]; simp [h1, h2]
    · rw [key]; simp [h1, h2, h3]


/-- Witness of C1 on the library double: the instance has workspace size 0,
the three calls require 1000, 500 and 2000 bytes, and the sizes recorded are
1000, 1000, 2000. -/
theorem Reshape_workspace_monotonic_witness :
    exC1Acc.1.workspace_size_ = 0 ∧
    exC1Calls.map
      (fun c => neededWorkspaceSize exLib exC1Acc.1.filter_desc_ exC1Acc.1.conv_desc_ c.1) =
        [1000, 500, 2000] ∧
    ((ReshapeAll exLib (exC1Acc.1, exC1Acc.2)
        [(exBlob 1 4 10 10 10, exBlob 1 2 10 10 10)]).1.workspace_size_ = 1000 ∧
      (ReshapeAll exLib (exC1Acc.1, exC1Acc.2)
        [(exBlob 1 4 10 10 10, exBlob 1 2 10 10 10),
          (exBlob 2 4 10 10 10, exBlob 2 2 10 10 10)]).1.workspace_size_ = 1000 ∧
      (ReshapeAll exLib (exC1Acc.1, exC1Acc.2)
        [(exBlob 1 4 10 10 10, exBlob 1 2 10 10 10),
          (exBlob 2 4 10 10 10, exBlob 2 2 10 10 10),
          (exBlob 3 4 10 10 10, exBlob 3 2 10 10 10)]).1.workspace_size_ = 2000) :=
  ⟨by decide, by decide,
    (Reshape_workspace_monotonic exLib exC1Acc.1 exC1Acc.2 (by decide)).2.2
      (exBlob 1 4 10 10 10, exBlob 1 2 10 10 10) (exBlob 2 4 10 10 10, exBlob 2 2 10 10 10)
      (exBlob 3 4 10 10 10, exBlob 3 2 10 10 10) (by decide) (by decide) (by decide)⟩

/-- C3, counterexample: on a ready instance, a `Reshape` whose output blob
was assigned the shape 1x2x5x5x5 while the derived output shape is
1x2x10x10x10 returns `TNN_OK`. -/
theorem Reshape_shape_mismatch_ok :
    (Reshape exLib exReady.1 (exBlob 1 4 10 10 10) (exBlob 1 2 5 5 5) exReady.2).2.1.top_desc_ =
      [1, 2, 10, 10, 10] ∧
    (exBlob 1 2 5 5 5).dims.toList = [1, 2, 5, 5, 5] ∧
    (Reshape exLib exReady.1 (exBlob 1 4 10 10 10) (exBlob 1 2 5 5 5) exReady.2).2.1.top_desc_ ≠
      (exBlob 1 2 5 5 5).dims.toList ∧
    (Reshape exLib exReady.1 (exBlob 1 4 10 10 10) (exBlob 1 2 5 5 5) exReady.2).1 =
      Status.TNN_OK := by
  decide

/-- C3, amended: `Reshape` does not compare the derived output shape with the
shape assigned to the output blob.  It returns `TNN_OK` on every call, whether
or not the two agree, and sets the output descriptor to the derived shape, on
which the output blob has no influence. -/
theorem Reshape_ok_regardless_of_output_shape (lib : Cudnn) (self : CudaConv3DLayerAcc)
    (input output : Blob) (dev : Device) :
    (Reshape lib self input output dev).1 = Status.TNN_OK ∧
    (Reshape lib self input output dev).2.1.top_desc_ =
      cudnnGetConvolutionNdForwardOutputDim self.conv_desc_ input.dims.toList
        self.filter_desc_ ∧
    ∀ other : Blob,
      (Reshape lib self input other dev).2.1.top_desc_ =
        (Reshape lib self input output dev).2.1.top_desc_ :=
  ⟨Reshape_status lib self input output dev, Reshape_top_desc lib self input output dev,
    fun other => (Reshape_top_desc lib self input other dev).trans
      (Reshape_top_desc lib self input output dev).symm⟩

/-- C5, counterexample: after an `Init` that returned `TNNERR_MODEL_ERR` on a
bias size mismatch, `Reshape` on the same instance is not rejected: it
returns `TNN_OK` and allocates a workspace of 1000 bytes on the device, next
to the weight buffer the failed `Init` had staged. -/
theorem Reshape_after_failed_Init_ok :
    exFailed.1 = Status.TNNERR_MODEL_ERR ∧
    (Reshape exLib exFailed.2.1 (exBlob 1 4 10 10 10) (exBlob 1 2 10 10 10) exFailed.2.2).1 =
      Status.TNN_OK ∧
    exFailed.2.2.live.map (fun b => (b.ptr, b.bytes)) = [(1, 864)] ∧
    (Reshape exLib exFailed.2.1 (exBlob 1 4 10 10 10) (exBlob 1 2 10 10 10)
      exFailed.2.2).2.2.live.map (fun b => (b.ptr, b.bytes)) = [(1, 864), (2, 1000)] := by
  decide

/-- C5, amended: a failed `Init` is not terminal for `Reshape`.  On every
instance on which `Init` has returned an error (the error is
`TNNERR_MODEL_ERR`, from the bias size check), a following `Reshape` is not
rejected: it returns `TNN_OK` and does its device work, setting the input
descriptor to the input shape and the output descriptor to the derived shape,
and bringing the workspace to the size the selected algorithm requires, as a
live device buffer when that size is not zero. -/
theorem Reshape_after_failed_Init_not_rejected (lib : Cudnn) (self : CudaConv3DLayerAcc)
    (conv_param : ConvLayerParam) (conv_resource : ConvLayerResource) (input0 output0 : Blob)
    (dev0 : Device) (input output : Blob)
    (hfail : (Init lib self conv_param conv_resource input0 output0 dev0).1 ≠ Status.TNN_OK) :
    (Init lib self conv_param conv_resource input0 output0 dev0).1 = Status.TNNERR_MODEL_ERR ∧
    (Reshape lib (Init lib self conv_param conv_resource input0 output0 dev0).2.1 input output
      (Init lib self conv_param conv_resource input0 output0 dev0).2.2).1 = Status.TNN_OK ∧
    (Reshape lib (Init lib self conv_param conv_resource input0 output0 dev0).2.1 input output
      (Init lib self conv_param conv_resource input0 output0 dev0).2.2).2.1.bottom_desc_ =
        input.dims.toList ∧
    (Reshape lib (Init lib self conv_param conv_resource input0 output0 dev0).2.1 input output
      (Init lib self conv_param conv_resource input0 output0 dev0).2.2).2.1.top_desc_ =
        cudnnGetConvolutionNdForwardOutputDim
          (Init lib self conv_param conv_resource input0 output0 dev0).2.1.conv_desc_
          input.dims.toList
          (Init lib self conv_param conv_resource input0 output0 dev0).2.1.filter_desc_ ∧
    (Reshape lib (Init lib self conv_param conv_resource input0 output0 dev0).2.1 input output
      (Init lib self conv_param conv_resource input0 output0 dev0).2.2).2.1.workspace_size_ =
        neededWorkspaceSize lib
          (Init lib self conv_param conv_resource input0 output0 dev0).2.1.filter_desc_
          (Init lib self conv_param conv_resource input0 output0 dev0).2.1.conv_desc_ input ∧
    (0 < (Reshape lib (Init lib self conv_param conv_resource input0 output0 dev0).2.1 input
        output (Init lib self conv_param conv_resource input0 output0 dev0).2.2).2.1.workspace_size_ →
      (Reshape lib (Init lib self conv_param conv_resource input0 output0 dev0).2.1 input output
        (Init lib self conv_param conv_resource input0 output0 dev0).2.2).2.1.workspace_data_ ≠
          0 ∧
      (⟨(Reshape lib (Init lib self conv_param conv_resource input0 output0 dev0).2.1 input
          output (Init lib self conv_param conv_resource input0 output0 dev0).2.2).2.1.workspace_data_,
        (Reshape lib (Init lib self conv_param conv_resource input0 output0 dev0).2.1 input
          output (Init lib self conv_param conv_resource input0 output0 dev0).2.2).2.1.workspace_size_,
        []⟩ : DevBuf) ∈
        (Reshape lib (Init lib self conv_param conv_resource input0 output0 dev0).2.1 input
          output (Init lib self conv_param conv_resource input0 output0 dev0).2.2).2.2.live) := by
  have hb : conv_param.bias = true := by
    cases hbias : conv_param.bias with
    | true => rfl
    | false =>
      exfalso
      apply hfail
      rw [Init_no_bias lib self conv_param conv_resource input0 output0 dev0 hbias]
      exact Reshape_status _ _ _ _ _
  have hne : (toSizeT output0.dims.channels * 4) % 2 ^ 64 ≠
      toSizeT conv_resource.bias_handle.bytes_size := by
    intro heq
    apply hfail
    rw [Init_bias lib self conv_param conv_resource input0 output0 dev0 hb heq]
    exact Reshape_status _ _ _ _ _
  have hI := Init_mismatch lib self conv_param conv_resource input0 output0 dev0 hb hne
  have hst : (Init lib self conv_param conv_resource input0 output0 dev0).1 =
      Status.TNNERR_MODEL_ERR := by rw [hI]
  have h0 : (Init lib self conv_param conv_resource input0 output0 dev0).2.1.workspace_size_ =
      0 := by rw [hI]; rfl
  have hd : (Init lib self conv_param conv_resource input0 output0 dev0).2.1.workspace_data_ =
      0 := by rw [hI]; rfl
  have hready := Reshape_workspace_ready lib
    (Init lib self conv_param conv_resource input0 output0 dev0).2.1 input output
    (Init lib self conv_param conv_resource input0 output0 dev0).2.2 h0 hd
  exact ⟨hst, Reshape_status _ _ _ _ _, Reshape_bottom_desc _ _ _ _ _,
    Reshape_top_desc _ _ _ _ _, hready.1, hready.2⟩

/-- Witness of the amended C5 on the library double: the `Init` with a 4-byte
bias buffer for 2 output channels fails, and the `Reshape` that follows
returns `TNN_OK` with a workspace of 1000 bytes. -/
theorem Reshape_after_failed_Init_not_rejected_witness :
    exFailed.1 ≠ Status.TNN_OK ∧
    (Reshape exLib exFailed.2.1 (exBlob 1 4 10 10 10) (exBlob 1 2 10 10 10) exFailed.2.2).1 =
      Status.TNN_OK ∧
    (Reshape exLib exFailed.2.1 (exBlob 1 4 10 10 10) (exBlob 1 2 10 10 10)
      exFailed.2.2).2.1.workspace_size_ = 1000 :=
  have h := Reshape_after_failed_Init_not_rejected exLib exFresh ⟨exKernel 1, true⟩
    ⟨⟨864, []⟩, ⟨4, [1]⟩⟩ (exBlob 1 4 10 10 10) (exBlob 1 2 10 10 10) exDevice
    (exBlob 1 4 10 10 10) (exBlob 1 2 10 10 10) (by decide)
  ⟨by decide, h.2.1, by decide⟩

/-- C10, the code at the failing input: for item number 1 and the buffer
"a b", `GetItems` returns the pointer to the terminating NUL (offset 3, the
length of the buffer), not the buffer itself (offset 0, the position after
zero spaces). -/
theorem GetItems_first_item :
    GetItems ['a', ' ', 'b'] 1 = 3 ∧ afterSpace ['a', ' ', 'b'] 0 = some 0 ∧
    GetItems ['a', ' ', 'b'] 1 ≠ 0 := by
  decide


/-- C2, counterexample: `Init` with the bias flag set and a bias buffer of 4
bytes for 2 output channels returns `TNNERR_MODEL_ERR` on a device that had
nothing allocated, and on return the staged weight buffer (pointer 1, 864
bytes) is still allocated. -/
theorem Init_failure_keeps_weights :
    (ConvLayerParam.mk (exKernel 1) true).bias = true ∧
    (exBlob 1 2 10 10 10).dims.channels * 4 ≠ (RawBuffer.mk 4 [1]).bytes_size ∧
    exDevice.live = [] ∧
    exFailed.1 = Status.TNNERR_MODEL_ERR ∧
    exFailed.2.2.live.map (fun b => (b.ptr, b.bytes)) = [(1, 864)] ∧
    exFailed.2.2.live ≠ exDevice.live := by
  decide

/-- C2, amended: when the bias flag is set and the bias buffer byte size
differs from `output_channels * 4`, `Init` returns `TNNERR_MODEL_ERR`; at that
moment the staged weight buffer is the one device buffer `Init` has acquired
and it is still allocated, held by `weights_` (no bias buffer and no
workspace have been allocated); the destructor releases it. -/
theorem Init_bias_mismatch (lib : Cudnn) (self : CudaConv3DLayerAcc)
    (conv_param : ConvLayerParam) (conv_resource : ConvLayerResource) (input output : Blob)
    (dev : Device) (hb : conv_param.bias = true) (hc : IsInt output.dims.channels)
    (hs : IsInt conv_resource.bias_handle.bytes_size)
    (hne : output.dims.channels * 4 ≠ conv_resource.bias_handle.bytes_size) (hwf : dev.WF) :
    (Init lib self conv_param conv_resource input output dev).1 = Status.TNNERR_MODEL_ERR ∧
    (Init lib self conv_param conv_resource input output dev).2.2.live =
      dev.live ++ [⟨dev.next + 1, weights_size (FetchDimensions input output) conv_param.kernel,
        hostRead conv_resource.filter_handle
          (weights_size (FetchDimensions input output) conv_param.kernel)⟩] ∧
    (Init lib self conv_param conv_resource input output dev).2.1.weights_ = dev.next + 1 ∧
    (Init lib self conv_param conv_resource input output dev).2.1.bias_ = 0 ∧
    (Init lib self conv_param conv_resource input output dev).2.1.workspace_data_ = 0 ∧
    (destroy (Init lib self conv_param conv_resource input output dev).2.1
      (Init lib self conv_param conv_resource input output dev).2.2).live = dev.live := by
  rw [Init_mismatch lib self conv_param conv_resource input output dev hb
    (toSizeT_ne_of_ne _ _ hc hs hne)]
  have hlive := cudaMemcpy_fresh dev (weights_size (FetchDimensions input output)
    conv_param.kernel) (hostRead conv_resource.filter_handle
      (weights_size (FetchDimensions input output) conv_param.kernel)) hwf
  refine ⟨rfl, hlive, rfl, rfl, rfl, ?_⟩
  unfold destroy
  dsimp only [InitStage_fst]
  rw [if_neg (by simp), if_pos (by simp), if_neg (by simp)]
  have h2 : (InitStage self conv_param conv_resource input output dev).2 =
      ⟨dev.next + 1, dev.live ++ [⟨dev.next + 1,
        weights_size (FetchDimensions input output) conv_param.kernel,
        hostRead conv_resource.filter_handle
          (weights_size (FetchDimensions input output) conv_param.kernel)⟩]⟩ := by
    rw [InitStage_snd]
    exact congrArg (Device.mk (dev.next + 1)) hlive
  rw [h2]
  exact cudaFree_fresh dev.live dev.next (dev.next + 1) _ _ hwf (Nat.lt_succ_self _)

/-- Witness of the amended C2 on the library double. -/
theorem Init_bias_mismatch_witness :
    (ConvLayerParam.mk (exKernel 1) true).bias = true ∧
    IsInt (exBlob 1 2 10 10 10).dims.channels ∧
    IsInt (RawBuffer.mk 4 [1]).bytes_size ∧
    (exBlob 1 2 10 10 10).dims.channels * 4 ≠ (RawBuffer.mk 4 [1]).bytes_size ∧
    exDevice.WF ∧
    exFailed.1 = Status.TNNERR_MODEL_ERR ∧
    exFailed.2.1.weights_ = 1 ∧
    (destroy exFailed.2.1 exFailed.2.2).live = exDevice.live :=
  have hwf : exDevice.WF := by intro b hb; cases hb
  have h := Init_bias_mismatch exLib exFresh ⟨exKernel 1, true⟩ ⟨⟨864, []⟩, ⟨4, [1]⟩⟩
    (exBlob 1 4 10 10 10) (exBlob 1 2 10 10 10) exDevice rfl (by decide) (by decide) (by decide)
    hwf
  ⟨rfl, by decide, by decide, by decide, hwf, h.1, h.2.2.1, h.2.2.2.2.2⟩

/-- C4, the code at the failing input: with 2 groups, 4 input channels, 2
output channels and a 1x1x1 kernel the filter descriptor is [2, 2, 1, 1, 1],
4 elements or 16 bytes, which is the size of the host weight buffer, while
`weights_size` is 32 bytes: `Init` allocates 32 bytes for the weights (the
other live buffer is the workspace) and copies 8 values, the last 4 of which
lie beyond the end of the host buffer. -/
theorem Init_grouped_weights_size :
    (exKernel1 2).groups = 2 ∧
    exGrouped.2.1.filter_desc_ = [2, 2, 1, 1, 1] ∧
    4 * numel exGrouped.2.1.filter_desc_ = 16 ∧
    weights_size (FetchDimensions (exBlob 1 4 2 2 2) (exBlob 1 2 2 2 2)) (exKernel1 2) = 32 ∧
    exGrouped.2.2.live.map (fun b => (b.ptr, b.bytes)) = [(1, 32), (2, 1000)] ∧
    (exGrouped.2.2.read exGrouped.2.1.weights_).length = 8 ∧
    (exGrouped.2.2.read exGrouped.2.1.weights_).drop 4 = [none, none, none, none] := by
  decide

/-- C6: when the resource sizes match, `Init` is `Reshape` run on the members
it has prepared (no workspace yet, weights staged) and returns that call's
status, `TNN_OK`; on return the input and output descriptors describe
the current shapes, the forward algorithm is the one the library selects for
them, the workspace size is at least what that algorithm requires and, when
non-zero, the workspace is a live device buffer of that size; `Forward`
right after returns `TNN_OK`. -/
theorem Init_run_ready (lib : Cudnn) (self : CudaConv3DLayerAcc) (conv_param : ConvLayerParam)
    (conv_resource : ConvLayerResource) (input output : Blob) (dev : Device)
    (r : Status × CudaConv3DLayerAcc × Device)
    (hr : r = Init lib self conv_param conv_resource input output dev)
    (hmatch : conv_param.bias = true →
      output.dims.channels * 4 = conv_resource.bias_handle.bytes_size) :
    (∃ (pre : CudaConv3DLayerAcc) (dpre : Device),
      r = Reshape lib pre input output dpre ∧ r.1 = (Reshape lib pre input output dpre).1 ∧
      pre.workspace_size_ = 0 ∧ pre.workspace_data_ = 0 ∧ pre.weights_ = dev.next + 1 ∧
      pre.bias_term_ = conv_param.bias ∧
      pre.filter_desc_ = filter_dims (FetchDimensions input output) conv_param.kernel) ∧
    r.1 = Status.TNN_OK ∧
    r.2.1.bottom_desc_ = input.dims.toList ∧
    r.2.1.top_desc_ =
      cudnnGetConvolutionNdForwardOutputDim r.2.1.conv_desc_ r.2.1.bottom_desc_
        r.2.1.filter_desc_ ∧
    r.2.1.conv_algo_ =
      lib.GetConvolutionForwardAlgorithm r.2.1.bottom_desc_ r.2.1.filter_desc_ r.2.1.conv_desc_
        r.2.1.top_desc_ ∧
    lib.GetConvolutionForwardWorkspaceSize r.2.1.bottom_desc_ r.2.1.filter_desc_
      r.2.1.conv_desc_ r.2.1.top_desc_ r.2.1.conv_algo_ ≤ r.2.1.workspace_size_ ∧
    (0 < r.2.1.workspace_size_ →
      r.2.1.workspace_data_ ≠ 0 ∧
      (⟨r.2.1.workspace_data_, r.2.1.workspace_size_, []⟩ : DevBuf) ∈ r.2.2.live) ∧
    (Forward lib r.2.1 input output r.2.2).1 = Status.TNN_OK := by
  obtain ⟨pre, dpre, hinit, h0, hd, hw, hbt, -, -, hf⟩ :=
    Init_eq_Reshape lib self conv_param conv_resource input output dev hmatch
  have hrr : r = Reshape lib pre input output dpre := hr.trans hinit
  subst hrr
  have hready := Reshape_workspace_ready lib pre input output dpre h0 hd
  refine ⟨⟨pre, dpre, rfl, rfl, h0, hd, hw, hbt, hf⟩, Reshape_status _ _ _ _ _,
    Reshape_bottom_desc _ _ _ _ _, ?_, ?_, ?_, hready.2, Forward_status _ _ _ _ _⟩
  · rw [Reshape_top_desc, Reshape_bottom_desc, Reshape_conv_desc, Reshape_filter_desc]
  · rw [Reshape_conv_algo, Reshape_top_desc, Reshape_bottom_desc, Reshape_conv_desc,
      Reshape_filter_desc]
  · rw [Reshape_conv_algo, Reshape_top_desc, Reshape_bottom_desc, Reshape_conv_desc,
      Reshape_filter_desc, hready.1]
    exact le_refl _

/-- Witness of C6 on the library double: bias flag set, 8 bytes of bias for
2 output channels. -/
theorem Init_run_ready_witness :
    (exBlob 1 2 10 10 10).dims.channels * 4 = (RawBuffer.mk 8 [1, 1]).bytes_size ∧
    exBiased.1 = Status.TNN_OK ∧
    exBiased.2.1.workspace_size_ = 1000 ∧
    (Forward exLib exBiased.2.1 (exBlob 1 4 10 10 10) (exBlob 1 2 10 10 10) exBiased.2.2).1 =
      Status.TNN_OK :=
  have h := Init_run_ready exLib exFresh ⟨exKernel 1, true⟩ ⟨⟨864, []⟩, ⟨8, [1, 1]⟩⟩
    (exBlob 1 4 10 10 10) (exBlob 1 2 10 10 10) exDevice exBiased rfl (fun _ => by decide)
  ⟨by decide, h.2.1, by decide, h.2.2.2.2.2.2.2⟩

/-- C8: the shape `Reshape` writes into the output descriptor is the
library's output-dimension query on the convolution, input and filter
descriptors; on an instance set up by `Init` it is the batch of the input,
the output channel count of `Init`, and on each spatial axis
`floor((in + 2 pad - dilation (kernel - 1) - 1) / stride) + 1` with that
axis's kernel extent, padding, stride and dilation; the output blob handed to
`Reshape` has no influence on it.  Input 10, kernel 3, stride 1, padding 1,
dilation 1 give 10; input 10, kernel 3, stride 2, padding 0, dilation 1
give 4. -/
theorem Reshape_output_shape (lib : Cudnn) (self0 : CudaConv3DLayerAcc)
    (conv_param : ConvLayerParam) (conv_resource : ConvLayerResource) (input0 output0 : Blob)
    (dev0 : Device) (input output : Blob) (dev : Device) :
    (∀ self : CudaConv3DLayerAcc,
      (Reshape lib self input output dev).2.1.top_desc_ =
        cudnnGetConvolutionNdForwardOutputDim
          (Reshape lib self input output dev).2.1.conv_desc_
          (Reshape lib self input output dev).2.1.bottom_desc_
          (Reshape lib self input output dev).2.1.filter_desc_) ∧
    (Reshape lib (Init lib self0 conv_param conv_resource input0 output0 dev0).2.1 input output
        dev).2.1.top_desc_ =
      [input.dims.batch, output0.dims.channels,
        convOutputSize input.dims.depth conv_param.kernel.kernel_d conv_param.kernel.pad_f
          conv_param.kernel.stride_d conv_param.kernel.dilation_d,
        convOutputSize input.dims.height conv_param.kernel.kernel_h conv_param.kernel.pad_t
          conv_param.kernel.stride_h conv_param.kernel.dilation_h,
        convOutputSize input.dims.width conv_param.kernel.kernel_w conv_param.kernel.pad_l
          conv_param.kernel.stride_w conv_param.kernel.dilation_w] ∧
    (∀ inp kernel pad stride dilation : Int, 0 ≤ stride →
      convOutputSize inp kernel pad stride dilation =
        ⌊((inp + 2 * pad - dilation * (kernel - 1) - 1 : Int) : ℚ) / (stride : ℚ)⌋ + 1) ∧
    convOutputSize 10 3 1 1 1 = 10 ∧ convOutputSize 10 3 0 2 1 = 4 := by
  refine ⟨fun self => ?_, ?_, ?_, by decide, by decide⟩
  · rw [Reshape_top_desc, Reshape_bottom_desc, Reshape_conv_desc, Reshape_filter_desc]
  · rw [Reshape_top_desc, Init_filter_desc, Init_conv_desc]
    rfl
  · intro inp kernel pad stride dilation hs
    unfold convOutputSize
    rw [Int.fdiv_eq_ediv _ hs]
    obtain ⟨d, rfl⟩ := Int.eq_ofNat_of_zero_le hs
    rw [Int.cast_natCast, Rat.floor_intCast_div_natCast]

/-- Witness of C8 on the library double: a `Reshape` on a 10x10x10 input
with kernel 3, stride 1, padding 1, dilation 1 sets the output descriptor to
1x2x10x10x10 although the output blob was assigned 1x2x5x5x5. -/
theorem Reshape_output_shape_witness :
    (Reshape exLib exReady.1 (exBlob 1 4 10 10 10) (exBlob 1 2 5 5 5) exReady.2).2.1.top_desc_ =
      [1, 2, 10, 10, 10] ∧
    (0 : Int) ≤ 2 ∧
    convOutputSize 10 3 0 2 1 = ⌊(((10 + 2 * 0 - 1 * (3 - 1) - 1 : Int) : ℚ)) / ((2 : Int) : ℚ)⌋ + 1 :=
  have h := Reshape_output_shape exLib exFresh ⟨exKernel 1, false⟩ ⟨⟨864, []⟩, ⟨0, []⟩⟩
    (exBlob 1 4 10 10 10) (exBlob 1 2 10 10 10) exDevice (exBlob 1 4 10 10 10)
    (exBlob 1 2 5 5 5) exReady.2
  ⟨h.2.1, by decide, h.2.2.1 10 3 0 2 1 (by decide)⟩


/-- C9: bias accumulation in `Forward`.  After `Init` with the bias flag
clear, `Forward` is the single convolution call with alpha 1 and beta 0, so
each output element is the convolution value, whatever the output held
before.  After `Init` of the same configuration with the bias flag set (and a
bias buffer of the right size), `Forward` is that convolution call followed
by one `cudnnAddTensor` call with alpha 1 and beta 1 on the bias descriptor
and the staged bias, and each output element is the no-bias output plus the
bias value of its channel; with all bias values 1 it is the no-bias output
plus 1. -/
theorem Forward_bias_accumulation (lib : Cudnn) (self : CudaConv3DLayerAcc)
    (kernel : KernelInfo) (conv_resource : ConvLayerResource) (input output : Blob)
    (dev : Device) (x y : Blob) (rn rb : Status × CudaConv3DLayerAcc × Device)
    (hn : rn = Init lib self ⟨kernel, false⟩ conv_resource input output dev)
    (hb : rb = Init lib self ⟨kernel, true⟩ conv_resource input output dev)
    (hc : 0 ≤ output.dims.channels) (hi : IsInt output.dims.channels)
    (hmatch : output.dims.channels * 4 = conv_resource.bias_handle.bytes_size) :
    Forward lib rn.2.1 x y rn.2.2 =
      (Status.TNN_OK,
        cudnnConvolutionForward lib 1 rn.2.1.bottom_desc_ x.base rn.2.1.filter_desc_
          (rn.2.2.read rn.2.1.weights_) rn.2.1.conv_desc_ rn.2.1.conv_algo_ 0 rn.2.1.top_desc_
          y.base) ∧
    Forward lib rb.2.1 x y rb.2.2 =
      (Status.TNN_OK,
        cudnnAddTensor 1 rb.2.1.bias_desc_ (rb.2.2.read rb.2.1.bias_) 1 rb.2.1.top_desc_
          (cudnnConvolutionForward lib 1 rb.2.1.bottom_desc_ x.base rb.2.1.filter_desc_
            (rb.2.2.read rb.2.1.weights_) rb.2.1.conv_desc_ rb.2.1.conv_algo_ 0 rb.2.1.top_desc_
            y.base)) ∧
    rn.2.1.bias_term_ = false ∧ rb.2.1.bias_term_ = true ∧
    rb.2.1.bias_desc_ = [1, output.dims.channels, 1, 1, 1] ∧
    rb.2.1.top_desc_ = rn.2.1.top_desc_ ∧
    (∀ i, i < numel rn.2.1.top_desc_ →
      (Forward lib rn.2.1 x y rn.2.2).2.getD i none =
        (lib.Convolution rn.2.1.bottom_desc_ x.base rn.2.1.filter_desc_
          (hostRead conv_resource.filter_handle
            (weights_size (FetchDimensions input output) kernel))
          rn.2.1.conv_desc_ rn.2.1.conv_algo_ rn.2.1.top_desc_).getD i none ∧
      (Forward lib rb.2.1 x y rb.2.2).2.getD i none =
        (conv_resource.bias_handle.data.get? (channelOf rn.2.1.top_desc_ i)).bind
          (fun b => ((Forward lib rn.2.1 x y rn.2.2).2.getD i none).map (fun v => v + b))) ∧
    ((∀ j, j < output.dims.channels.toNat → conv_resource.bias_handle.data.get? j = some 1) →
      ∀ i, i < numel rn.2.1.top_desc_ →
        (Forward lib rb.2.1 x y rb.2.2).2.getD i none =
          ((Forward lib rn.2.1 x y rn.2.2).2.getD i none).map (fun v => v + 1)) := by
  have heq : (toSizeT output.dims.channels * 4) % 2 ^ 64 =
      toSizeT conv_resource.bias_handle.bytes_size := by
    rw [toSizeT_mul_four, hmatch]
  have hmN := Init_members lib self ⟨kernel, false⟩ conv_resource input output dev
  have hmB := Init_members lib self ⟨kernel, true⟩ conv_resource input output dev
  have hbm := Init_bias_members lib self ⟨kernel, true⟩ conv_resource input output dev rfl heq
  have hsN := Init_shape_members lib self ⟨kernel, false⟩ conv_resource input output dev
    (fun h => Bool.noConfusion h)
  have hsB := Init_shape_members lib self ⟨kernel, true⟩ conv_resource input output dev
    (fun _ => heq)
  have hfN := Init_filter_desc lib self ⟨kernel, false⟩ conv_resource input output dev
  have hfB := Init_filter_desc lib self ⟨kernel, true⟩ conv_resource input output dev
  have hcN := Init_conv_desc lib self ⟨kernel, false⟩ conv_resource input output dev
  have hcB := Init_conv_desc lib self ⟨kernel, true⟩ conv_resource input output dev
  rw [← hn] at hmN hsN hfN hcN
  rw [← hb] at hmB hbm hsB hfB hcB
  have hFN := Forward_eq lib rn.2.1 x y rn.2.2
  have hFB := Forward_eq lib rb.2.1 x y rb.2.2
  rw [hmN.2.2.1, hmN.1, hmN.2.1] at hFN
  rw [hmB.2.2.1, hmB.1, hmB.2.1] at hFB
  simp only [Bool.false_eq_true, if_false] at hFN
  simp only [if_true] at hFB
  have htop : rb.2.1.top_desc_ = rn.2.1.top_desc_ := hsB.2.1.trans hsN.2.1.symm
  have hconv : cudnnConvolutionForward lib 1 rb.2.1.bottom_desc_ x.base rb.2.1.filter_desc_
      (rb.2.2.read rb.2.1.weights_) rb.2.1.conv_desc_ rb.2.1.conv_algo_ 0 rb.2.1.top_desc_
      y.base =
    cudnnConvolutionForward lib 1 rn.2.1.bottom_desc_ x.base rn.2.1.filter_desc_
      (rn.2.2.read rn.2.1.weights_) rn.2.1.conv_desc_ rn.2.1.conv_algo_ 0 rn.2.1.top_desc_
      y.base := by
    rw [hsB.1, hsN.1, hfB, hfN, hmB.2.2.2, hmN.2.2.2, hcB, hcN, hsB.2.2, hsN.2.2, hsB.2.1,
      hsN.2.1]
  have helem : ∀ i, i < numel rn.2.1.top_desc_ →
      (Forward lib rn.2.1 x y rn.2.2).2.getD i none =
        (lib.Convolution rn.2.1.bottom_desc_ x.base rn.2.1.filter_desc_
          (hostRead conv_resource.filter_handle
            (weights_size (FetchDimensions input output) kernel))
          rn.2.1.conv_desc_ rn.2.1.conv_algo_ rn.2.1.top_desc_).getD i none ∧
      (Forward lib rb.2.1 x y rb.2.2).2.getD i none =
        (conv_resource.bias_handle.data.get? (channelOf rn.2.1.top_desc_ i)).bind
          (fun b => ((Forward lib rn.2.1 x y rn.2.2).2.getD i none).map (fun v => v + b)) := by
    intro i hlt
    have h1 : (Forward lib rn.2.1 x y rn.2.2).2.getD i none =
        (lib.Convolution rn.2.1.bottom_desc_ x.base rn.2.1.filter_desc_
          (hostRead conv_resource.filter_handle
            (weights_size (FetchDimensions input output) kernel))
          rn.2.1.conv_desc_ rn.2.1.conv_algo_ rn.2.1.top_desc_).getD i none := by
      rw [hFN]
      dsimp only
      unfold cudnnConvolutionForward
      rw [getD_map_range _ _ _ hlt, blend_one_zero, hmN.2.2.2]
    refine ⟨h1, ?_⟩
    rw [hFB, hFN]
    dsimp only
    rw [hconv, htop]
    unfold cudnnAddTensor
    rw [getD_map_range _ _ _ hlt, blend_one_one, hbm.1, hbm.2, hsN.2.1,
      broadcastIndex_bias _ _ _ _ _ _ hc]
    have hpos : 0 < output.dims.channels.toNat := by
      rcases Nat.eq_zero_or_pos output.dims.channels.toNat with h0 | h0
      · exfalso
        have hz : output.dims.channels = 0 := by omega
        rw [hsN.2.1, hz, numel_top_zero] at hlt
        exact Nat.not_lt_zero _ hlt
      · exact h0
    have hk : channelOf [input.dims.batch, output.dims.channels,
        convOutputSize input.dims.depth kernel.kernel_d kernel.pad_f kernel.stride_d
          kernel.dilation_d,
        convOutputSize input.dims.height kernel.kernel_h kernel.pad_t kernel.stride_h
          kernel.dilation_h,
        convOutputSize input.dims.width kernel.kernel_w kernel.pad_l kernel.stride_w
          kernel.dilation_w] i < output.dims.channels.toNat := Nat.mod_lt _ hpos
    rw [← hmatch, hostRead_getD _ _ hc hi _ hk]
  refine ⟨hFN, hFB, hmN.2.2.1, hmB.2.2.1, hbm.1, htop, helem, ?_⟩
  intro hones i hlt
  rw [(helem i hlt).2]
  have hpos : 0 < output.dims.channels.toNat := by
    rcases Nat.eq_zero_or_pos output.dims.channels.toNat with h0 | h0
    · exfalso
      have hz : output.dims.channels = 0 := by omega
      rw [hsN.2.1, hz, numel_top_zero] at hlt
      exact Nat.not_lt_zero _ hlt
    · exact h0
  have hch : channelOf rn.2.1.top_desc_ i < output.dims.channels.toNat := by
    rw [hsN.2.1]
    exact Nat.mod_lt _ hpos
  rw [hones _ hch]
  rfl

/-- Witness of C9 on the library double: 2 output channels, 8 bytes of bias,
both bias values 1; the first output element with bias is the one without
bias plus 1. -/
theorem Forward_bias_accumulation_witness :
    (0 : Int) ≤ (exBlob 1 2 2 2 2).dims.channels ∧
    IsInt (exBlob 1 2 2 2 2).dims.channels ∧
    (exBlob 1 2 2 2 2).dims.channels * 4 = exOnes.bias_handle.bytes_size ∧
    numel (Init exLib exFresh ⟨exKernel 1, false⟩ exOnes (exBlob 1 4 2 2 2) (exBlob 1 2 2 2 2)
      exDevice).2.1.top_desc_ = 16 ∧
    (Forward exLib
      (Init exLib exFresh ⟨exKernel 1, true⟩ exOnes (exBlob 1 4 2 2 2) (exBlob 1 2 2 2 2)
        exDevice).2.1 (exBlob 1 4 2 2 2) (exBlob 1 2 2 2 2)
      (Init exLib exFresh ⟨exKernel 1, true⟩ exOnes (exBlob 1 4 2 2 2) (exBlob 1 2 2 2 2)
        exDevice).2.2).2.getD 0 none =
      ((Forward exLib
        (Init exLib exFresh ⟨exKernel 1, false⟩ exOnes (exBlob 1 4 2 2 2) (exBlob 1 2 2 2 2)
          exDevice).2.1 (exBlob 1 4 2 2 2) (exBlob 1 2 2 2 2)
        (Init exLib exFresh ⟨exKernel 1, false⟩ exOnes (exBlob 1 4 2 2 2) (exBlob 1 2 2 2 2)
          exDevice).2.2).2.getD 0 none).map (fun v => v + 1) :=
  ⟨by decide, by decide, by decide, by decide,
    (Forward_bias_accumulation exLib exFresh (exKernel 1) exOnes (exBlob 1 4 2 2 2)
      (exBlob 1 2 2 2 2) exDevice (exBlob 1 4 2 2 2) (exBlob 1 2 2 2 2) _ _ rfl rfl
      (by decide) (by decide) (by decide)).2.2.2.2.2.2.2
      (by
        intro j hj
        have hj2 : j < 2 := hj
        interval_cases j <;> rfl)
      0 (by decide)⟩

end TNN_NS
